import Mathlib

/-!
Shallow embedding of the QA automation workflow core: the retry utility
(`src/utils/retry.ts`), the base agent execution contract (`src/agents/base.ts`),
the session manager (`src/agents/session-manager.ts`) and the orchestrator
pipeline (`src/agents/orchestrator.ts`).  Machine-level details such as real
wall-clock timers and promises are modelled with explicit timestamps and
settlement values; JavaScript truthiness on optional fields is modelled
explicitly where the source relies on it (`x || default`).
-/

namespace QAAutomation

/-- Model of a JavaScript `Error` value as thrown/caught by the source:
a message, a name (defaults to "Error") and an optional `code` property. -/
structure JSError where
  message : String
  name : String := "Error"
  code : Option String := none
  deriving DecidableEq

/-- JavaScript `x || d` for an optional string property: `undefined` and the
empty string are falsy, every other string is returned unchanged. -/
def jsOrStr (o : Option String) (d : String) : String :=
  match o with
  | none => d
  | some s => if s = "" then d else s

/-- JavaScript `x || d` for an optional numeric property: `undefined` and `0`
are falsy. -/
def jsOrNat (o : Option Nat) (d : Nat) : Nat :=
  match o with
  | none => d
  | some n => if n = 0 then d else n

/-- Boolean test that `p` is a prefix of `l` (on character lists). -/
def isPrefixCharB : List Char → List Char → Bool
  | [], _ => true
  | _ :: _, [] => false
  | p :: ps, c :: cs => (p == c) && isPrefixCharB ps cs

/-- Boolean substring containment on character lists: does `hs` contain the
contiguous pattern `ns`? -/
def containsSub (ns : List Char) : List Char → Bool
  | [] => isPrefixCharB ns []
  | c :: rest => isPrefixCharB ns (c :: rest) || containsSub ns rest

/-- Lower-case a character list (models JavaScript case-insensitive regex
matching for the ASCII literals used by the source patterns). -/
def lowerChars (l : List Char) : List Char := l.map Char.toLower

/-- A literal-substring pattern, as used by both retryability classifiers in
the source (all regexes there are literal substrings, some with the `i` flag). -/
structure Pat where
  lit : String
  ignoreCase : Bool
  deriving DecidableEq

/-- `Pat.test p s` models `/lit/.test(s)` (resp. `/lit/i.test(s)`). -/
def Pat.test (p : Pat) (s : String) : Bool :=
  if p.ignoreCase then containsSub (lowerChars p.lit.toList) (lowerChars s.toList)
  else containsSub p.lit.toList s.toList

namespace Retry

/-- Retry configuration options (`RetryOptions` in `retry.ts`). -/
structure RetryOptions where
  maxAttempts : Nat
  initialDelay : Nat
  maxDelay : Nat
  backoffMultiplier : Nat
  retryableErrors : Option (List String) := none
  deriving DecidableEq

/-- Default retry options (`DEFAULT_RETRY_OPTIONS` in `retry.ts`). -/
def defaultRetryOptions : RetryOptions :=
  { maxAttempts := 3, initialDelay := 1000, maxDelay := 30000, backoffMultiplier := 2 }

/-- Exponential backoff delay (`calculateDelay` in `retry.ts`). -/
def calculateDelay (attempt : Nat) (opts : RetryOptions) : Nat :=
  min (opts.initialDelay * opts.backoffMultiplier ^ (attempt - 1)) opts.maxDelay

/-- The default retryable patterns of `isRetryableError` in `retry.ts`, in
source order: network / timeout / rate-limit phrasing (case-insensitive),
connection resets, DNS failures and HTTP 429/502/503/504. -/
def retryablePatterns : List Pat :=
  [⟨"network", true⟩, ⟨"timeout", true⟩, ⟨"rate limit", true⟩,
   ⟨"ECONNRESET", false⟩, ⟨"ETIMEDOUT", false⟩, ⟨"ENOTFOUND", false⟩,
   ⟨"429", false⟩, ⟨"502", false⟩, ⟨"503", false⟩, ⟨"504", false⟩]

/-- `isRetryableError` from `retry.ts`: with a non-empty explicit retryable
set, match `error.code || error.name` against it; otherwise apply the default
pattern classification to the error message. -/
def isRetryableError (e : JSError) (opts : RetryOptions) : Bool :=
  match opts.retryableErrors with
  | some (c :: cs) => (c :: cs).contains (jsOrStr e.code e.name)
  | _ => retryablePatterns.any (fun p => p.test e.message)

/-- One iteration of the `for (let attempt = 1; attempt <= maxAttempts; ...)`
loop of `retry` in `retry.ts`, starting at attempt number `attempt` with the
last caught error `lastErr`.  The result pairs the surfaced outcome with the
total number of invocations of `fn` that were made (the number of the last
attempt).  `fn k` is the outcome of the `k`-th invocation. -/
def retryGo {T : Type} (fn : Nat → Except JSError T) (opts : RetryOptions)
    (attempt : Nat) (lastErr : Option JSError) : Except JSError T × Nat :=
  if _h : attempt ≤ opts.maxAttempts then
    match fn attempt with
    | .ok v => (.ok v, attempt)
    | .error e =>
      if opts.maxAttempts ≤ attempt then (.error e, attempt)
      else if isRetryableError e opts then retryGo fn opts (attempt + 1) (some e)
      else (.error e, attempt)
  else
    -- fall-through `throw lastError!` after the loop; unreachable for
    -- `maxAttempts ≥ 1`, and for `maxAttempts = 0` the source throws the
    -- undefined `lastError`
    (.error (lastErr.getD ⟨"undefined", "undefined", none⟩), attempt - 1)
termination_by opts.maxAttempts + 1 - attempt
decreasing_by omega

/-- `retry` from `retry.ts`: run `fn` up to `opts.maxAttempts` times, also
reporting how many invocations were made. -/
def retry {T : Type} (fn : Nat → Except JSError T) (opts : RetryOptions) :
    Except JSError T × Nat :=
  retryGo fn opts 1 none

end Retry

/-- The error descriptor carried by a failure step result (the `error` field
of `AgentResult` in the source types). -/
structure StepError where
  message : String
  code : String
  retryable : Bool
  deriving DecidableEq

/-- The normalized step outcome (`AgentResult` in the source types): success
flag, optional typed payload, optional error descriptor. -/
structure AgentResult (T : Type) where
  success : Bool
  data : Option T := none
  error : Option StepError := none
  deriving DecidableEq

namespace BaseAgent

/-- The retryable patterns of `BaseAgent.isRetryableError` in `base.ts`, in
source order.  Unlike the default classification of `retry.ts`, this list has
no `ENOTFOUND` (DNS failure) pattern. -/
def retryablePatterns : List Pat :=
  [⟨"rate limit", true⟩, ⟨"timeout", true⟩, ⟨"network", true⟩,
   ⟨"ECONNRESET", false⟩, ⟨"ETIMEDOUT", false⟩,
   ⟨"429", false⟩, ⟨"502", false⟩, ⟨"503", false⟩, ⟨"504", false⟩]

/-- `BaseAgent.isRetryableError` from `base.ts`: the default classification
used to compute the `retryable` flag of a failure result. -/
def isRetryableError (e : JSError) : Bool :=
  retryablePatterns.any (fun p => p.test e.message)

deriving instance DecidableEq for Except

/-- A settled promise: the (logical) time at which it settles and the value
or error it settles with. -/
structure Settled (T : Type) where
  time : Int
  outcome : Except JSError T
  deriving DecidableEq

/-- `Promise.race` over two eventually-settling promises: the race settles
with whichever settlement comes first (at equal times the first argument is
taken; the source never relies on the tie). -/
def promiseRace {T : Type} (p q : Settled T) : Settled T :=
  if p.time ≤ q.time then p else q

/-- The fixed error rejected by the timeout timer of
`BaseAgent.executeWithTimeout` (`Agent timeout after ...ms`). -/
def timeoutError (ms : Nat) : JSError :=
  { message := "Agent timeout after " ++ toString ms ++ "ms" }

/-- `BaseAgent.executeWithTimeout` from `base.ts`: race the agent's `run`
promise against a timer that rejects with `timeoutError` after
`config.timeout || 300000` milliseconds. -/
def executeWithTimeout {T : Type} (timeoutCfg : Option Nat) (run : Settled T) :
    Settled T :=
  let t := jsOrNat timeoutCfg 300000
  promiseRace run ⟨(t : Int), .error (timeoutError t)⟩

/-- The settlement reports of a `Promise.race`: a promise settles exactly
once, with the earliest of the two settlements; the loser is discarded and is
never reported. -/
def raceReports {T : Type} (p q : Settled T) : List (Settled T) :=
  [promiseRace p q]

/-- The settlement reports of `executeWithTimeout`. -/
def executeWithTimeoutReports {T : Type} (timeoutCfg : Option Nat)
    (run : Settled T) : List (Settled T) :=
  let t := jsOrNat timeoutCfg 300000
  raceReports run ⟨(t : Int), .error (timeoutError t)⟩

/-- `BaseAgent.execute` from `base.ts`, as a function of the per-attempt
outcomes of `executeWithTimeout` (`attempts k` is the settled outcome of the
`k`-th attempt): run the attempts through `retry` with
`maxAttempts = config.retries || 3` and no explicit retryable set, then
normalize.  Success wraps the payload; failure wraps
`{message, code: error.code || 'AGENT_ERROR', retryable: isRetryableError}`.
The function is total: `execute` always resolves to an `AgentResult` and
never rejects across its own boundary. -/
def execute {T : Type} (retriesCfg : Option Nat) (attempts : Nat → Except JSError T) :
    AgentResult T :=
  let opts : Retry.RetryOptions :=
    { Retry.defaultRetryOptions with maxAttempts := jsOrNat retriesCfg 3 }
  match Retry.retry attempts opts with
  | (.ok v, _) => { success := true, data := some v, error := none }
  | (.error e, _) =>
    { success := false, data := none,
      error := some { message := e.message, code := jsOrStr e.code "AGENT_ERROR",
                      retryable := isRetryableError e } }

end BaseAgent

/-- Session status enum (`SessionStatus` in the source types). -/
inductive SessionStatus
  | created
  | running
  | completed
  | failed
  | timeout
  deriving DecidableEq

/-- Workflow phase enum (`WorkflowPhase` in the source types). -/
inductive WorkflowPhase
  | detection
  | analysis
  | classification
  | implementation
  | prCreation
  | completion
  deriving DecidableEq

/-- Session error descriptor (`SessionError` in the source types; the optional
`stack`/`phase` fields, never read by the core, are omitted). -/
structure SessionError where
  message : String
  code : String
  retryable : Bool
  deriving DecidableEq

/-- An agent session (`AgentSession` in the source types).  The accumulated
context is abstracted to its `updatedAt` timestamp, the only context field the
session manager itself writes. -/
structure AgentSession where
  id : Nat
  qaItemId : String
  status : SessionStatus
  startedAt : Int
  completedAt : Option Int := none
  error : Option SessionError := none
  currentPhase : Option WorkflowPhase := none
  completedPhases : List WorkflowPhase := []
  ctxUpdatedAt : Int
  deriving DecidableEq

namespace SessionManager

/-- Events emitted by the session manager (`this.emit(...)` calls). -/
inductive SMEvent
  | createdEv (id : Nat)
  | updatedEv (id : Nat)
  | phaseEv (id : Nat) (ph : WorkflowPhase)
  | contextEv (id : Nat)
  | closedEv (id : Nat)
  | timeoutEv (id : Nat)
  deriving DecidableEq

/-- The session manager's state: the session map (as an insertion-ordered
list), the set of armed per-session timeout timers, the emitted events and
the id counter modelling collision-resistant session-id generation. -/
structure SMState where
  sessions : List AgentSession := []
  timers : List Nat := []
  events : List SMEvent := []
  nextId : Nat := 0
  deriving DecidableEq

/-- The empty store of a freshly constructed `SessionManager`. -/
def initState : SMState := {}

/-- `this.sessions.get(sessionId)`. -/
def findSession (st : SMState) (id : Nat) : Option AgentSession :=
  st.sessions.find? (fun s => s.id == id)

/-- Apply `f` to the session with the given id (in-place mutation of the
session object held in the map). -/
def mapSession (st : SMState) (id : Nat) (f : AgentSession → AgentSession) : SMState :=
  { st with sessions := st.sessions.map (fun s => if s.id == id then f s else s) }

/-- `clearTimeout(sessionId)`: disarm and forget the session's timer. -/
def clearTimer (st : SMState) (id : Nat) : SMState :=
  { st with timers := st.timers.filter (fun t => t ≠ id) }

/-- `SessionManager.create`: allocate a fresh id, insert a CREATED session,
arm its timeout timer and emit a creation event. -/
def create (st : SMState) (qaItemId : String) (now : Int) : SMState :=
  let id := st.nextId
  let sess : AgentSession :=
    { id := id, qaItemId := qaItemId, status := .created, startedAt := now,
      ctxUpdatedAt := now }
  { sessions := st.sessions ++ [sess],
    timers := st.timers ++ [id],
    events := st.events ++ [.createdEv id],
    nextId := id + 1 }

/-- The per-session mutation performed by `updateStatus` on the found
session: set the status, stamp the context update time, record the error if
given, and stamp `completedAt` when the new status is COMPLETED or FAILED. -/
def applyStatus (status : SessionStatus) (err : Option SessionError) (now : Int)
    (s : AgentSession) : AgentSession :=
  let s1 := { s with status := status, ctxUpdatedAt := now }
  let s2 := match err with
    | some e => { s1 with error := some e }
    | none => s1
  if status = .completed ∨ status = .failed then
    { s2 with completedAt := some now }
  else s2

/-- `SessionManager.updateStatus`: transition the status, stamp the context
update time, record the error if given; if the new status is COMPLETED or
FAILED, stamp `completedAt` and disarm the timer.  A missing session is a
logged no-op. -/
def updateStatus (st : SMState) (id : Nat) (status : SessionStatus)
    (err : Option SessionError) (now : Int) : SMState :=
  match findSession st id with
  | none => st
  | some _ =>
    let st1 := mapSession st id (applyStatus status err now)
    let st2 :=
      if status = .completed ∨ status = .failed then clearTimer st1 id else st1
    { st2 with events := st2.events ++ [.updatedEv id] }

/-- The per-session mutation performed by `updatePhase`: set the current
phase and append it to the completed-phase history if not already present. -/
def applyPhase (ph : WorkflowPhase) (now : Int) (s : AgentSession) : AgentSession :=
  let s1 := { s with currentPhase := some ph, ctxUpdatedAt := now }
  if ph ∈ s1.completedPhases then s1
  else { s1 with completedPhases := s1.completedPhases ++ [ph] }

/-- `SessionManager.updatePhase`: set the current phase and append it to the
completed-phase history if not already present. -/
def updatePhase (st : SMState) (id : Nat) (ph : WorkflowPhase) (now : Int) : SMState :=
  match findSession st id with
  | none => st
  | some _ =>
    let st1 := mapSession st id (applyPhase ph now)
    { st1 with events := st1.events ++ [.phaseEv id ph] }

/-- `SessionManager.updateContext`: shallow-merge context fields, refreshing
the updated timestamp (the merged payload fields are outside this model). -/
def updateContext (st : SMState) (id : Nat) (now : Int) : SMState :=
  match findSession st id with
  | none => st
  | some _ =>
    let st1 := mapSession st id (fun s => { s with ctxUpdatedAt := now })
    { st1 with events := st1.events ++ [.contextEv id] }

/-- `SessionManager.close`: update status to the given one (COMPLETED by
default: `status || SessionStatus.COMPLETED`), disarm the timer and emit a
closed event.  The session is kept for history, never deleted here. -/
def close (st : SMState) (id : Nat) (status : Option SessionStatus) (now : Int) :
    SMState :=
  match findSession st id with
  | none => st
  | some _ =>
    let finalStatus := status.getD .completed
    let st1 := updateStatus st id finalStatus none now
    let st2 := clearTimer st1 id
    { st2 with events := st2.events ++ [.closedEv id] }

/-- The fixed error descriptor used by the session-timeout handler. -/
def sessionTimeoutError : SessionError :=
  { message := "Session timed out", code := "SESSION_TIMEOUT", retryable := false }

/-- The firing of the one-shot timer armed by `setupTimeout`: if the timer is
still armed, it is consumed; the callback transitions the session to TIMEOUT
with the fixed descriptor and emits a timeout event only when the session
still exists and its status is RUNNING. -/
def timerFire (st : SMState) (id : Nat) (now : Int) : SMState :=
  if id ∈ st.timers then
    let st1 : SMState := { st with timers := st.timers.filter (fun t => t ≠ id) }
    match findSession st1 id with
    | some s =>
      if s.status = .running then
        let st2 := updateStatus st1 id .timeout (some sessionTimeoutError) now
        { st2 with events := st2.events ++ [.timeoutEv id] }
      else st1
    | none => st1
  else st

/-- The removal predicate of `SessionManager.cleanup`: completion time set and
older than the cutoff, and status COMPLETED or FAILED. -/
def cleanupRemoves (s : AgentSession) (olderThan now : Int) : Bool :=
  (match s.completedAt with
   | some t => decide (t < now - olderThan)
   | none => false)
  && (s.status == .completed || s.status == .failed)

/-- `SessionManager.cleanup`: sweep old terminal sessions. -/
def cleanup (st : SMState) (olderThan now : Int) : SMState :=
  { st with sessions := st.sessions.filter (fun s => !cleanupRemoves s olderThan now) }

/-- `SessionManager.getActiveSessions`: sessions with status RUNNING or
CREATED. -/
def getActiveSessions (st : SMState) : List AgentSession :=
  st.sessions.filter (fun s => s.status == .running || s.status == .created)

/-- `SessionManager.getActiveSessionCount`. -/
def getActiveSessionCount (st : SMState) : Nat :=
  (getActiveSessions st).length

/-- The record returned by `SessionManager.getStats`. -/
structure Stats where
  total : Nat
  active : Nat
  completed : Nat
  failed : Nat
  timeout : Nat
  deriving DecidableEq

/-- `SessionManager.getStats`: note that `active` counts only RUNNING
sessions. -/
def getStats (st : SMState) : Stats :=
  { total := st.sessions.length,
    active := st.sessions.countP (fun s => s.status == .running),
    completed := st.sessions.countP (fun s => s.status == .completed),
    failed := st.sessions.countP (fun s => s.status == .failed),
    timeout := st.sessions.countP (fun s => s.status == .timeout) }

/-- One store operation, as issued by callers or by the timer subsystem. -/
inductive SMOp
  | opCreate (qaItemId : String)
  | opUpdateStatus (id : Nat) (status : SessionStatus) (err : Option SessionError)
  | opUpdatePhase (id : Nat) (ph : WorkflowPhase)
  | opUpdateContext (id : Nat)
  | opClose (id : Nat) (status : Option SessionStatus)
  | opTimerFire (id : Nat)
  | opCleanup (olderThan : Int)
  deriving DecidableEq

/-- Apply one timed operation to the store. -/
def step (st : SMState) : SMOp × Int → SMState
  | (.opCreate q, now) => create st q now
  | (.opUpdateStatus id s e, now) => updateStatus st id s e now
  | (.opUpdatePhase id ph, now) => updatePhase st id ph now
  | (.opUpdateContext id, now) => updateContext st id now
  | (.opClose id s, now) => close st id s now
  | (.opTimerFire id, now) => timerFire st id now
  | (.opCleanup d, now) => cleanup st d now

/-- Run a sequence of timed operations from a starting store. -/
def runOps (st : SMState) (ops : List (SMOp × Int)) : SMState :=
  ops.foldl step st

/-- Store invariant: every session whose status is COMPLETED or FAILED has a
completion timestamp. -/
def TerminalHasCompleted (st : SMState) : Prop :=
  ∀ s ∈ st.sessions, (s.status = .completed ∨ s.status = .failed) →
    s.completedAt.isSome = true

/-- Store invariant: session ids are pairwise distinct and below the id
counter (collision-resistant id generation). -/
def IdsOk (st : SMState) : Prop :=
  (st.sessions.map (fun s => s.id)).Nodup ∧ ∀ s ∈ st.sessions, s.id < st.nextId

/-- The conjunction of the store invariants maintained by every operation. -/
def Inv (st : SMState) : Prop :=
  TerminalHasCompleted st ∧ IdsOk st

end SessionManager

/-- Work-item status enum (`QAStatus` in the source types). -/
inductive QAStatus
  | notStarted
  | inProgress
  | done
  | notActionable
  | inReview
  | cancelled
  deriving DecidableEq

/-- A work item (`NotionQAItem`), reduced to the fields the orchestrator
control flow reads. -/
structure NotionQAItem where
  id : String
  status : QAStatus
  deriving DecidableEq

/-- Classification decision payload (`ClassificationDecision`), reduced to
the fields the orchestrator reads. -/
structure ClassificationDecision where
  shouldAct : Bool
  reason : String
  deriving DecidableEq

/-- Pull-request payload (`PullRequest`), reduced to the field the
orchestrator reads. -/
structure PullRequest where
  url : String
  deriving DecidableEq

namespace Orchestrator

/-- External side effects performed by the orchestrator through its
collaborators (item tracker, notification channel) and the step runners it
invokes. -/
inductive Effect
  | notionStatus (qaId : String) (st : QAStatus)
  | notionComment (qaId : String) (text : String)
  | notionProp (qaId : String)
  | slackStart (qaId : String)
  | slackNotActionable (qaId : String) (reason : String)
  | slackSuccess (qaId : String)
  | slackError (qaId : String) (message : String)
  | agentExec (agentType : String)
  deriving DecidableEq

/-- The interpolation `${result.error?.message}` of the source: the message
of the step error, or the string `undefined` when no error descriptor is
present. -/
def errMsgOf {T : Type} (r : AgentResult T) : String :=
  match r.error with
  | some e => e.message
  | none => "undefined"

/-- The comment attached by `handleNotActionable`. -/
def notActionableComment (reason : String) : String :=
  "🤖 Automation Analysis\n\nThis QA is not actionable for automation.\n\nReason: "
    ++ reason ++ "\n\nPlease review and update if needed."

/-- The comment attached by `completeQA`. -/
def successComment (url : String) : String :=
  "✅ Automated Fix Completed\n\nPull Request: " ++ url
    ++ "\n\nPlease review the changes."

/-- The comment attached by `handleError`. -/
def failComment (msg : String) : String :=
  "❌ Automation Failed\n\nError: " ++ msg ++ "\n\nPlease review manually."

/-- The outcome of one `processQA` call: the session store afterwards, the
external effects performed, and whether the call returned normally or threw. -/
structure PipeOut where
  store : SessionManager.SMState
  effects : List Effect
  outcome : Except JSError Unit
  deriving DecidableEq

/-- The `try` block of `OrchestratorAgent.processQA`, starting after the
session has been created (id `sid`) and marked RUNNING.  The step results of
the four strategy agents are inputs `aR`/`cR`/`iR`/`pR`; invoking an agent is
recorded as an `agentExec` effect.  A `throw` is modelled as an `.error`
outcome carrying the thrown `Error`. -/
def processQATry {A I : Type} (st : SessionManager.SMState) (sid : Nat) (now : Int)
    (qa : NotionQAItem) (aR : AgentResult A) (cR : AgentResult ClassificationDecision)
    (iR : AgentResult I) (pR : AgentResult PullRequest) :
    SessionManager.SMState × List Effect × Except JSError Unit :=
  let effs1 : List Effect :=
    [.notionStatus qa.id .inProgress, .slackStart qa.id]
  let st3 := SessionManager.updatePhase st sid .analysis now
  let effs2 := effs1 ++ [.agentExec "qa-analyzer"]
  if aR.success = false then
    (st3, effs2, .error { message := "QA Analysis failed: " ++ errMsgOf aR })
  else
    let st4 := SessionManager.updateContext st3 sid now
    let st5 := SessionManager.updatePhase st4 sid .classification now
    let effs3 := effs2 ++ [.agentExec "action-classifier"]
    if cR.success = false then
      (st5, effs3, .error { message := "Classification failed: " ++ errMsgOf cR })
    else
      let st6 := SessionManager.updateContext st5 sid now
      match cR.data with
      | none =>
        -- `!classificationResult.data?.shouldAct` is true, and
        -- `classificationResult.data!.reason` then throws a TypeError
        (st6, effs3, .error { message := "Cannot read properties of undefined",
                              name := "TypeError" })
      | some d =>
        if d.shouldAct = false then
          let effs4 := effs3 ++
            [.notionStatus qa.id .notActionable,
             .notionComment qa.id (notActionableComment d.reason),
             .slackNotActionable qa.id d.reason]
          let st7 := SessionManager.close st6 sid (some .completed) now
          (st7, effs4, .ok ())
        else
          let st8 := SessionManager.updatePhase st6 sid .implementation now
          let effs5 := effs3 ++ [.agentExec "code-agent"]
          if iR.success = false then
            (st8, effs5,
             .error { message := "Code implementation failed: " ++ errMsgOf iR })
          else
            let st9 := SessionManager.updateContext st8 sid now
            let st10 := SessionManager.updatePhase st9 sid .prCreation now
            let effs6 := effs5 ++ [.agentExec "pr-manager"]
            if pR.success = false then
              (st10, effs6,
               .error { message := "PR creation failed: " ++ errMsgOf pR })
            else
              let st11 := SessionManager.updateContext st10 sid now
              let st12 := SessionManager.updatePhase st11 sid .completion now
              match pR.data with
              | none =>
                -- `completeQA(qaItem, prResult.data!)` reads `pr.url`
                (st12, effs6,
                 .error { message := "Cannot read properties of undefined",
                          name := "TypeError" })
              | some pr =>
                let effs7 := effs6 ++
                  [.notionStatus qa.id .done,
                   .notionComment qa.id (successComment pr.url),
                   .notionProp qa.id, .slackSuccess qa.id]
                let st13 := SessionManager.close st12 sid (some .completed) now
                (st13, effs7, .ok ())

/-- `OrchestratorAgent.processQA`: create the session, mark it RUNNING, run
the phased pipeline; on a thrown error, mark the session FAILED with
`{message: error.message, code: PROCESSING_ERROR, retryable: false}` and
rethrow. -/
def processQA {A I : Type} (st0 : SessionManager.SMState) (now : Int)
    (qa : NotionQAItem) (aR : AgentResult A) (cR : AgentResult ClassificationDecision)
    (iR : AgentResult I) (pR : AgentResult PullRequest) : PipeOut :=
  let sid := st0.nextId
  let st1 := SessionManager.create st0 qa.id now
  let st2 := SessionManager.updateStatus st1 sid .running none now
  let r := processQATry st2 sid now qa aR cR iR pR
  match r.2.2 with
  | .ok _ => { store := r.1, effects := r.2.1, outcome := .ok () }
  | .error e =>
    { store := SessionManager.updateStatus r.1 sid .failed
        (some { message := e.message, code := "PROCESSING_ERROR", retryable := false }) now,
      effects := r.2.1,
      outcome := .error e }

/-- One work item together with the step results its four strategy agents
would produce. -/
structure ItemRun (A I : Type) where
  qa : NotionQAItem
  aR : AgentResult A
  cR : AgentResult ClassificationDecision
  iR : AgentResult I
  pR : AgentResult PullRequest

/-- `OrchestratorAgent.handleNewQA`: skip items not in NOT_STARTED status;
otherwise run `processQA` and, if it threw, perform the `handleError` side
effects (item to IN_REVIEW, explanatory comment, failure notification).  The
`try`/`catch` makes the handler itself return normally in every case. -/
def handleNewQA {A I : Type} (st : SessionManager.SMState) (now : Int)
    (r : ItemRun A I) : Except JSError (SessionManager.SMState × List Effect) :=
  if r.qa.status = .notStarted then
    let p := processQA st now r.qa r.aR r.cR r.iR r.pR
    match p.outcome with
    | .ok _ => .ok (p.store, p.effects)
    | .error e =>
      .ok (p.store,
        p.effects ++
          [.notionStatus r.qa.id .inReview,
           .notionComment r.qa.id (failComment e.message),
           .slackError r.qa.id e.message])
  else
    .ok (st, [])

/-- One tick of the polling fallback: `for (const qaItem of qaItems) await
this.handleNewQA(qaItem)`.  An exception thrown by a handler would abort the
remaining iterations, which the `Except` bind models. -/
def pollTick {A I : Type} (st : SessionManager.SMState) (now : Int)
    (items : List (ItemRun A I)) :
    Except JSError (SessionManager.SMState × List Effect) :=
  items.foldl
    (fun acc r => acc.bind (fun pr =>
      (handleNewQA pr.1 now r).map (fun h => (h.1, pr.2 ++ h.2))))
    (.ok (st, []))

/-- Success flag of the step result driving the given pipeline phase. -/
def phaseSuccess {A I : Type} (r : ItemRun A I) : WorkflowPhase → Bool
  | .analysis => r.aR.success
  | .classification => r.cR.success
  | .implementation => r.iR.success
  | .prCreation => r.pR.success
  | _ => true

/-- Step error message of the given pipeline phase (as interpolated by the
source). -/
def phaseErrMsg {A I : Type} (r : ItemRun A I) : WorkflowPhase → String
  | .analysis => errMsgOf r.aR
  | .classification => errMsgOf r.cR
  | .implementation => errMsgOf r.iR
  | .prCreation => errMsgOf r.pR
  | _ => ""

/-- The message prefix of the error thrown when the given phase fails. -/
def phaseLabel : WorkflowPhase → String
  | .analysis => "QA Analysis failed: "
  | .classification => "Classification failed: "
  | .implementation => "Code implementation failed: "
  | .prCreation => "PR creation failed: "
  | _ => ""

/-- The agent types of the phases strictly after the given phase. -/
def laterAgents : WorkflowPhase → List String
  | .analysis => ["action-classifier", "code-agent", "pr-manager"]
  | .classification => ["code-agent", "pr-manager"]
  | .implementation => ["pr-manager"]
  | _ => []

/-- The condition under which the pipeline control flow reaches the given
phase at all. -/
def reaches {A I : Type} (r : ItemRun A I) : WorkflowPhase → Prop
  | .analysis => True
  | .classification => r.aR.success = true
  | .implementation =>
    r.aR.success = true ∧ r.cR.success = true ∧
      ∃ d, r.cR.data = some d ∧ d.shouldAct = true
  | .prCreation =>
    r.aR.success = true ∧ r.cR.success = true ∧
      (∃ d, r.cR.data = some d ∧ d.shouldAct = true) ∧ r.iR.success = true
  | _ => False

end Orchestrator

/-! Helper lemmas about substring matching. -/

theorem isPrefixCharB_append (ns hs r : List Char)
    (h : isPrefixCharB ns hs = true) : isPrefixCharB ns (hs ++ r) = true := by
  induction ns generalizing hs with
  | nil => rfl
  | cons p ps ih =>
    cases hs with
    | nil => simp [isPrefixCharB] at h
    | cons c cs =>
      simp only [isPrefixCharB, Bool.and_eq_true] at h ⊢
      exact ⟨h.1, ih cs h.2⟩

theorem containsSub_nil_left (l : List Char) : containsSub [] l = true := by
  cases l with
  | nil => rfl
  | cons c cs => simp [containsSub, isPrefixCharB]

theorem containsSub_append_left (ns hs r : List Char)
    (h : containsSub ns hs = true) : containsSub ns (hs ++ r) = true := by
  induction hs with
  | nil =>
    cases ns with
    | nil => simpa using containsSub_nil_left r
    | cons p ps => simp [containsSub, isPrefixCharB] at h
  | cons c cs ih =>
    simp only [containsSub, Bool.or_eq_true] at h
    rcases h with h | h
    · have := isPrefixCharB_append ns (c :: cs) r h
      simp only [List.cons_append, containsSub, Bool.or_eq_true]
      exact Or.inl (by simpa using this)
    · simp only [List.cons_append, containsSub, Bool.or_eq_true]
      exact Or.inr (ih h)

/-! Helper lemmas about the retry loop. -/

theorem retryGo_exhaust {T : Type} (fn : Nat → Except JSError T)
    (opts : Retry.RetryOptions) (errs : Nat → JSError)
    (hfail : ∀ k, fn k = .error (errs k))
    (hretry : ∀ k, Retry.isRetryableError (errs k) opts = true) :
    ∀ (n a : Nat) (last : Option JSError), opts.maxAttempts - a ≤ n → 1 ≤ a →
      a ≤ opts.maxAttempts →
      Retry.retryGo fn opts a last =
        (.error (errs opts.maxAttempts), opts.maxAttempts) := by
  intro n
  induction n with
  | zero =>
    intro a last hle h1 h2
    have ha : a = opts.maxAttempts := by omega
    unfold Retry.retryGo
    rw [dif_pos h2, hfail a]
    simp [ha]
  | succ n ih =>
    intro a last hle h1 h2
    by_cases hmax : opts.maxAttempts ≤ a
    · have ha : a = opts.maxAttempts := by omega
      unfold Retry.retryGo
      rw [dif_pos h2, hfail a]
      simp [hmax, ha]
    · unfold Retry.retryGo
      rw [dif_pos h2, hfail a]
      simp only [if_neg hmax, hretry a, if_pos]
      exact ih (a + 1) (some (errs a)) (by omega) (by omega) (by omega)

theorem retry_all_fail {T : Type} (fn : Nat → Except JSError T)
    (opts : Retry.RetryOptions) (errs : Nat → JSError) (hn : 1 ≤ opts.maxAttempts)
    (hfail : ∀ k, fn k = .error (errs k))
    (hretry : ∀ k, Retry.isRetryableError (errs k) opts = true) :
    Retry.retry fn opts = (.error (errs opts.maxAttempts), opts.maxAttempts) :=
  retryGo_exhaust fn opts errs hfail hretry (opts.maxAttempts - 1) 1 none
    (by omega) le_rfl hn

/-- C4: for every retry policy with `maxAttempts = n` (`n ≥ 1`) and every
operation that throws a retryable error on every invocation, `retry` invokes
the operation exactly `n` times (the second component of the result counts
invocations) and the error it surfaces is the one thrown by the `n`-th (last)
attempt. -/
theorem retry_exhausts_attempts {T : Type} (fn : Nat → Except JSError T)
    (opts : Retry.RetryOptions) (errs : Nat → JSError) (n : Nat)
    (hmax : opts.maxAttempts = n) (hn : 1 ≤ n)
    (hfail : ∀ k, fn k = .error (errs k))
    (hretry : ∀ k, Retry.isRetryableError (errs k) opts = true) :
    Retry.retry fn opts = (.error (errs n), n) := by
  subst hmax
  exact retry_all_fail fn opts errs hn hfail hretry

/-- Witness for C4 at a concrete permanently-failing operation with
`maxAttempts = 2`. -/
theorem retry_exhausts_attempts_witness :
    Retry.retry (fun _ => (.error ⟨"connection timeout", "Error", none⟩ : Except JSError Nat))
        { maxAttempts := 2, initialDelay := 1, maxDelay := 5, backoffMultiplier := 2 } =
      (.error ⟨"connection timeout", "Error", none⟩, 2) := by
  have hr : Retry.isRetryableError ⟨"connection timeout", "Error", none⟩
      { maxAttempts := 2, initialDelay := 1, maxDelay := 5, backoffMultiplier := 2 } = true := by
    decide
  exact retry_exhausts_attempts
    (fun _ => .error ⟨"connection timeout", "Error", none⟩)
    { maxAttempts := 2, initialDelay := 1, maxDelay := 5, backoffMultiplier := 2 }
    (fun _ => ⟨"connection timeout", "Error", none⟩) 2 rfl (by omega)
    (fun _ => rfl) (fun _ => hr)

theorem jsOrNat_pos (o : Option Nat) (d : Nat) (hd : 1 ≤ d) : 1 ≤ jsOrNat o d := by
  cases o with
  | none => exact hd
  | some n =>
    by_cases h : n = 0 <;> simp [jsOrNat, h] <;> omega

/-- The timeout rejection message always contains the substring `timeout`, so
any pattern list containing the case-insensitive `timeout` pattern classifies
it as retryable. -/
theorem any_test_timeout_message (pats : List Pat)
    (hmem : (⟨"timeout", true⟩ : Pat) ∈ pats) (t : Nat) :
    pats.any (fun p => p.test (BaseAgent.timeoutError t).message) = true := by
  rw [List.any_eq_true]
  refine ⟨⟨"timeout", true⟩, hmem, ?_⟩
  have hmsg : (BaseAgent.timeoutError t).message.toList =
      "Agent timeout after ".toList ++ ((toString t).toList ++ "ms".toList) := by
    show ("Agent timeout after " ++ toString t ++ "ms").data =
      "Agent timeout after ".data ++ ((toString t).data ++ "ms".data)
    rw [String.data_append, String.data_append, List.append_assoc]
  simp only [Pat.test, if_pos, reduceIte, hmsg, lowerChars, List.map_append]
  exact containsSub_append_left _ _ _ (by decide)

theorem baseAgent_timeout_retryable (t : Nat) :
    BaseAgent.isRetryableError (BaseAgent.timeoutError t) = true :=
  any_test_timeout_message _ (by decide) t

theorem retry_default_timeout_retryable (t : Nat) (opts : Retry.RetryOptions)
    (hopts : opts.retryableErrors = none) :
    Retry.isRetryableError (BaseAgent.timeoutError t) opts = true := by
  unfold Retry.isRetryableError
  rw [hopts]
  exact any_test_timeout_message _ (by decide) t

/-- C5: for a phase whose wrapped operation resolves only strictly after the
configured timeout (`config.timeout || 300000` ms), the race of
`executeWithTimeout` is won by the timer: the settled outcome is the fixed
timeout error, the race settles exactly once and the operation's late
settlement is discarded (it never appears among the settlement reports), and
the overall outcome of `BaseAgent.execute` over such attempts is a
timeout-flavored step result (`success = false`, the timeout message,
`retryable = true`). -/
theorem step_runner_timeout {T : Type} (timeoutCfg retriesCfg : Option Nat)
    (run : BaseAgent.Settled T)
    (h : (jsOrNat timeoutCfg 300000 : Int) < run.time) :
    BaseAgent.executeWithTimeout timeoutCfg run =
      ⟨(jsOrNat timeoutCfg 300000 : Int),
       .error (BaseAgent.timeoutError (jsOrNat timeoutCfg 300000))⟩
    ∧ BaseAgent.executeWithTimeoutReports timeoutCfg run =
      [⟨(jsOrNat timeoutCfg 300000 : Int),
        .error (BaseAgent.timeoutError (jsOrNat timeoutCfg 300000))⟩]
    ∧ run ∉ BaseAgent.executeWithTimeoutReports timeoutCfg run
    ∧ BaseAgent.execute retriesCfg
        (fun _ => (BaseAgent.executeWithTimeout timeoutCfg run).outcome) =
      { success := false, data := none,
        error := some
          { message := (BaseAgent.timeoutError (jsOrNat timeoutCfg 300000)).message,
            code := "AGENT_ERROR", retryable := true } } := by
  have hrace : BaseAgent.executeWithTimeout timeoutCfg run =
      ⟨(jsOrNat timeoutCfg 300000 : Int),
       .error (BaseAgent.timeoutError (jsOrNat timeoutCfg 300000))⟩ := by
    unfold BaseAgent.executeWithTimeout BaseAgent.promiseRace
    simp only []
    rw [if_neg (by omega)]
  have hreports : BaseAgent.executeWithTimeoutReports timeoutCfg run =
      [⟨(jsOrNat timeoutCfg 300000 : Int),
        .error (BaseAgent.timeoutError (jsOrNat timeoutCfg 300000))⟩] := by
    unfold BaseAgent.executeWithTimeoutReports BaseAgent.raceReports
    simp only []
    rw [show BaseAgent.promiseRace run
        ⟨(jsOrNat timeoutCfg 300000 : Int),
         .error (BaseAgent.timeoutError (jsOrNat timeoutCfg 300000))⟩ =
      BaseAgent.executeWithTimeout timeoutCfg run from rfl, hrace]
  refine ⟨hrace, hreports, ?_, ?_⟩
  · rw [hreports]
    intro hmem
    rcases List.mem_singleton.1 hmem with heq
    have : run.time = (jsOrNat timeoutCfg 300000 : Int) := by rw [heq]
    omega
  · have hout : (fun _ : Nat => (BaseAgent.executeWithTimeout timeoutCfg run).outcome) =
        fun _ : Nat =>
          (.error (BaseAgent.timeoutError (jsOrNat timeoutCfg 300000)) : Except JSError T) := by
      funext _
      rw [hrace]
    have hret : Retry.retry
        (fun _ : Nat =>
          (.error (BaseAgent.timeoutError (jsOrNat timeoutCfg 300000)) : Except JSError T))
        { Retry.defaultRetryOptions with maxAttempts := jsOrNat retriesCfg 3 } =
        (.error (BaseAgent.timeoutError (jsOrNat timeoutCfg 300000)), jsOrNat retriesCfg 3) := by
      refine retry_all_fail _ _
        (fun _ => BaseAgent.timeoutError (jsOrNat timeoutCfg 300000))
        (jsOrNat_pos _ _ (by omega)) (fun _ => rfl) (fun _ => ?_)
      exact retry_default_timeout_retryable _ _ rfl
    rw [hout]
    unfold BaseAgent.execute
    simp only [hret]
    simp [jsOrStr, baseAgent_timeout_retryable]
    rfl

/-- Witness for C5: a concrete 10ms timeout with an operation settling at
time 20. -/
theorem step_runner_timeout_witness :
    ((jsOrNat (some 10) 300000 : Int) < (20 : Int))
    ∧ BaseAgent.execute (some 2)
        (fun _ => (BaseAgent.executeWithTimeout (some 10)
          (⟨20, .ok 7⟩ : BaseAgent.Settled Nat)).outcome) =
      { success := false, data := none,
        error := some
          { message := (BaseAgent.timeoutError (jsOrNat (some 10) 300000)).message,
            code := "AGENT_ERROR", retryable := true } } :=
  ⟨by decide,
   (step_runner_timeout (some 10) (some 2) (⟨20, .ok 7⟩ : BaseAgent.Settled Nat)
      (by decide)).2.2.2⟩

/-- C6 counterexample: the two default retryability classifications disagree
on a DNS failure.  `retry.ts` treats a message containing `ENOTFOUND` as
retryable, `BaseAgent.isRetryableError` does not. -/
theorem default_classifications_differ_cex :
    BaseAgent.isRetryableError ⟨"getaddrinfo ENOTFOUND api.example.com", "Error", none⟩ = false
    ∧ Retry.isRetryableError ⟨"getaddrinfo ENOTFOUND api.example.com", "Error", none⟩
        Retry.defaultRetryOptions = true := by
  decide

/-- C6 as amended: on every error whose message does not contain the
`ENOTFOUND` DNS-failure marker, `BaseAgent.isRetryableError` returns the same
boolean as the default classification of `retry.ts` (no explicit
retryable-error set configured); the two classifications differ exactly in the
`ENOTFOUND` pattern, present only in `retry.ts`. -/
theorem default_classifications_agree (e : JSError)
    (h : containsSub "ENOTFOUND".toList e.message.toList = false) :
    BaseAgent.isRetryableError e =
      Retry.isRetryableError e Retry.defaultRetryOptions := by
  have key : ∀ a b c r : Bool, (a || (b || (c || r))) = (c || (b || (a || r))) := by
    decide
  unfold BaseAgent.isRetryableError Retry.isRetryableError Retry.defaultRetryOptions
  simp only [BaseAgent.retryablePatterns, Retry.retryablePatterns, List.any_cons,
    List.any_nil, Pat.test, if_pos, if_neg, Bool.or_false]
  simp only [reduceIte, h, Bool.false_or]
  exact key _ _ _ _

/-- Witness for C6 (amended) at a concrete rate-limit error. -/
theorem default_classifications_agree_witness :
    containsSub "ENOTFOUND".toList "HTTP 429 rate limit exceeded".toList = false
    ∧ BaseAgent.isRetryableError ⟨"HTTP 429 rate limit exceeded", "Error", none⟩ =
        Retry.isRetryableError ⟨"HTTP 429 rate limit exceeded", "Error", none⟩
          Retry.defaultRetryOptions :=
  ⟨by decide, default_classifications_agree ⟨"HTTP 429 rate limit exceeded", "Error", none⟩ (by decide)⟩

/-- C7: `BaseAgent.execute` always resolves to a step result and never
rejects across its own boundary (it is a total function into `AgentResult`):
when the retry of the wrapped attempts succeeds it returns `success = true`
wrapping the payload, and when it fails it returns `success = false` with an
error descriptor whose `code` is the underlying error's code when the error
supplies a (truthy) one and the generic `AGENT_ERROR` otherwise, and whose
`retryable` flag is computed by `BaseAgent.isRetryableError`. -/
theorem execute_normalizes {T : Type} (retriesCfg : Option Nat)
    (attempts : Nat → Except JSError T) :
    (∃ v k, Retry.retry attempts
          { Retry.defaultRetryOptions with maxAttempts := jsOrNat retriesCfg 3 } = (.ok v, k)
        ∧ BaseAgent.execute retriesCfg attempts =
            { success := true, data := some v, error := none })
    ∨ (∃ e k, Retry.retry attempts
          { Retry.defaultRetryOptions with maxAttempts := jsOrNat retriesCfg 3 } = (.error e, k)
        ∧ BaseAgent.execute retriesCfg attempts =
            { success := false, data := none,
              error := some { message := e.message,
                              code := jsOrStr e.code "AGENT_ERROR",
                              retryable := BaseAgent.isRetryableError e } }) := by
  rcases h : Retry.retry attempts
      { Retry.defaultRetryOptions with maxAttempts := jsOrNat retriesCfg 3 } with ⟨out, k⟩
  cases out with
  | ok v =>
    refine Or.inl ⟨v, k, rfl, ?_⟩
    unfold BaseAgent.execute
    simp only [h]
  | error e =>
    refine Or.inr ⟨e, k, rfl, ?_⟩
    unfold BaseAgent.execute
    simp only [h]

/-! Helper lemmas about the session store. -/

section SessionLemmas

open SessionManager

theorem applyStatus_id (status : SessionStatus) (err : Option SessionError)
    (now : Int) (s : AgentSession) : (applyStatus status err now s).id = s.id := by
  unfold applyStatus
  cases err <;> by_cases hc : status = .completed ∨ status = .failed <;> simp [hc]

theorem applyStatus_status (status : SessionStatus) (err : Option SessionError)
    (now : Int) (s : AgentSession) : (applyStatus status err now s).status = status := by
  unfold applyStatus
  cases err <;> by_cases hc : status = .completed ∨ status = .failed <;> simp [hc]

theorem applyStatus_completedAt_of_terminal (status : SessionStatus)
    (err : Option SessionError) (now : Int) (s : AgentSession)
    (hc : status = .completed ∨ status = .failed) :
    (applyStatus status err now s).completedAt = some now := by
  unfold applyStatus
  cases err <;> simp [hc]

theorem applyPhase_id (ph : WorkflowPhase) (now : Int) (s : AgentSession) :
    (applyPhase ph now s).id = s.id := by
  unfold applyPhase
  by_cases hc : ph ∈ s.completedPhases <;> simp [hc]

theorem applyPhase_status (ph : WorkflowPhase) (now : Int) (s : AgentSession) :
    (applyPhase ph now s).status = s.status := by
  unfold applyPhase
  by_cases hc : ph ∈ s.completedPhases <;> simp [hc]

theorem applyPhase_completedAt (ph : WorkflowPhase) (now : Int) (s : AgentSession) :
    (applyPhase ph now s).completedAt = s.completedAt := by
  unfold applyPhase
  by_cases hc : ph ∈ s.completedPhases <;> simp [hc]

theorem find?_map_pred (l : List AgentSession) (id : Nat)
    (f : AgentSession → AgentSession) (hf : ∀ s, (f s).id = s.id) :
    (l.map (fun s => if s.id == id then f s else s)).find? (fun s => s.id == id)
      = (l.find? (fun s => s.id == id)).map f := by
  induction l with
  | nil => rfl
  | cons c cs ih =>
    simp only [List.map_cons, List.find?_cons]
    by_cases hc : (c.id == id) = true
    · rw [if_pos hc]
      have hfc : ((f c).id == id) = true := by rw [hf]; exact hc
      rw [hfc, hc]
      rfl
    · have h2 : (c.id == id) = false := by
        cases h3 : (c.id == id)
        · rfl
        · exact absurd h3 hc
      rw [if_neg hc, h2]
      exact ih

theorem findSession_mapSession (st : SMState) (id : Nat)
    (f : AgentSession → AgentSession) (hf : ∀ s, (f s).id = s.id) :
    findSession (mapSession st id f) id = (findSession st id).map f :=
  find?_map_pred st.sessions id f hf

theorem map_id_mapSession (l : List AgentSession) (id : Nat)
    (f : AgentSession → AgentSession) (hf : ∀ s, (f s).id = s.id) :
    (l.map (fun s => if s.id == id then f s else s)).map (fun s => s.id)
      = l.map (fun s => s.id) := by
  induction l with
  | nil => rfl
  | cons c cs ih =>
    simp only [List.map_cons, ih, List.cons.injEq, and_true]
    by_cases hc : (c.id == id) = true
    · rw [if_pos hc, hf]
    · rw [if_neg hc]

theorem updateStatus_sessions (st : SMState) (id : Nat) (status : SessionStatus)
    (err : Option SessionError) (now : Int) :
    (updateStatus st id status err now).sessions =
      match findSession st id with
      | none => st.sessions
      | some _ =>
        st.sessions.map (fun s => if s.id == id then applyStatus status err now s else s) := by
  unfold updateStatus
  cases findSession st id with
  | none => rfl
  | some s0 =>
    by_cases hc : status = .completed ∨ status = .failed <;>
      simp [mapSession, clearTimer, hc]

theorem updateStatus_nextId (st : SMState) (id : Nat) (status : SessionStatus)
    (err : Option SessionError) (now : Int) :
    (updateStatus st id status err now).nextId = st.nextId := by
  unfold updateStatus
  cases findSession st id with
  | none => rfl
  | some s0 =>
    by_cases hc : status = .completed ∨ status = .failed <;>
      simp [mapSession, clearTimer, hc]

theorem updateStatus_events (st : SMState) (id : Nat) (status : SessionStatus)
    (err : Option SessionError) (now : Int) (s0 : AgentSession)
    (h : findSession st id = some s0) :
    (updateStatus st id status err now).events = st.events ++ [.updatedEv id] := by
  unfold updateStatus
  rw [h]
  by_cases hc : status = .completed ∨ status = .failed <;>
    simp [mapSession, clearTimer, hc]

theorem inv_congr (st st2 : SMState) (hs : st2.sessions = st.sessions)
    (hn : st2.nextId = st.nextId) (h : Inv st) : Inv st2 := by
  refine ⟨?_, ?_, ?_⟩
  · intro s hmem hterm
    exact h.1 s (hs ▸ hmem) hterm
  · rw [hs]
    exact h.2.1
  · intro s hmem
    rw [hn]
    exact h.2.2 s (hs ▸ hmem)

theorem mapSession_inv (st : SMState) (id : Nat) (f : AgentSession → AgentSession)
    (hf : ∀ s, (f s).id = s.id)
    (hterm : ∀ s, ((f s).status = .completed ∨ (f s).status = .failed) →
      (f s).completedAt.isSome = true ∨
        ((f s).status = s.status ∧ (f s).completedAt = s.completedAt))
    (h : Inv st) : Inv (mapSession st id f) := by
  refine ⟨?_, ?_, ?_⟩
  · intro s2 hmem hterm2
    rcases List.mem_map.1 hmem with ⟨s, hs, rfl⟩
    by_cases hc : (s.id == id) = true
    · rw [if_pos hc] at hterm2 ⊢
      rcases hterm _ hterm2 with hdone | ⟨hst, hca⟩
      · exact hdone
      · rw [hca]
        exact h.1 s hs (hst ▸ hterm2)
    · rw [if_neg hc] at hterm2 ⊢
      exact h.1 s hs hterm2
  · have hsess : (mapSession st id f).sessions
        = st.sessions.map (fun s => if s.id == id then f s else s) := rfl
    show ((mapSession st id f).sessions.map (fun s => s.id)).Nodup
    rw [hsess, map_id_mapSession st.sessions id f hf]
    exact h.2.1
  · intro s2 hmem
    rcases List.mem_map.1 hmem with ⟨s, hs, rfl⟩
    show (if s.id == id then f s else s).id < (mapSession st id f).nextId
    have hn : (mapSession st id f).nextId = st.nextId := rfl
    rw [hn]
    by_cases hc : (s.id == id) = true
    · rw [if_pos hc, hf]
      exact h.2.2 s hs
    · rw [if_neg hc]
      exact h.2.2 s hs

theorem updateStatus_inv (st : SMState) (id : Nat) (status : SessionStatus)
    (err : Option SessionError) (now : Int) (h : Inv st) :
    Inv (updateStatus st id status err now) := by
  cases hfind : findSession st id with
  | none =>
    unfold updateStatus
    rw [hfind]
    exact h
  | some s0 =>
    have h1 : Inv (mapSession st id (applyStatus status err now)) := by
      refine mapSession_inv st id _ (applyStatus_id status err now) ?_ h
      intro s hterm2
      rw [applyStatus_status] at hterm2
      exact Or.inl
        (by rw [applyStatus_completedAt_of_terminal status err now s hterm2]; rfl)
    refine inv_congr (mapSession st id (applyStatus status err now)) _ ?_ ?_ h1
    · rw [updateStatus_sessions, hfind]
      rfl
    · rw [updateStatus_nextId]
      rfl

theorem create_inv (st : SMState) (q : String) (now : Int) (h : Inv st) :
    Inv (create st q now) := by
  have hsess : (create st q now).sessions
      = st.sessions ++ [(⟨st.nextId, q, .created, now, none, none, none, [], now⟩ : AgentSession)] := rfl
  have hnext : (create st q now).nextId = st.nextId + 1 := rfl
  refine ⟨?_, ?_, ?_⟩
  · intro s hs hterm
    rw [hsess] at hs
    rcases List.mem_append.1 hs with hs | hs
    · exact h.1 s hs hterm
    · rw [List.mem_singleton] at hs
      subst hs
      simp at hterm
  · show ((create st q now).sessions.map (fun s => s.id)).Nodup
    rw [hsess, List.map_append, List.nodup_append]
    refine ⟨h.2.1, List.nodup_singleton _, ?_⟩
    intro a ha hb
    rw [List.map_singleton, List.mem_singleton] at hb
    rcases List.mem_map.1 ha with ⟨s, hs, rfl⟩
    have := h.2.2 s hs
    simp only [hb] at this
    omega
  · intro s hs
    rw [hsess] at hs
    show s.id < (create st q now).nextId
    rw [hnext]
    rcases List.mem_append.1 hs with hs | hs
    · have := h.2.2 s hs
      omega
    · rw [List.mem_singleton] at hs
      subst hs
      show st.nextId < st.nextId + 1
      omega

theorem updatePhase_inv (st : SMState) (id : Nat) (ph : WorkflowPhase) (now : Int)
    (h : Inv st) : Inv (updatePhase st id ph now) := by
  cases hfind : findSession st id with
  | none =>
    unfold updatePhase
    rw [hfind]
    exact h
  | some s0 =>
    have h1 : Inv (mapSession st id (applyPhase ph now)) := by
      refine mapSession_inv st id _ (applyPhase_id ph now) ?_ h
      intro s _
      exact Or.inr ⟨applyPhase_status ph now s, applyPhase_completedAt ph now s⟩
    refine inv_congr _ _ ?_ ?_ h1
    · unfold updatePhase
      rw [hfind]
    · unfold updatePhase
      rw [hfind]

theorem updateContext_inv (st : SMState) (id : Nat) (now : Int) (h : Inv st) :
    Inv (updateContext st id now) := by
  cases hfind : findSession st id with
  | none =>
    unfold updateContext
    rw [hfind]
    exact h
  | some s0 =>
    have h1 : Inv (mapSession st id (fun s => { s with ctxUpdatedAt := now })) := by
      refine mapSession_inv st id _ (fun s => rfl) ?_ h
      intro s _
      exact Or.inr ⟨rfl, rfl⟩
    refine inv_congr _ _ ?_ ?_ h1
    · unfold updateContext
      rw [hfind]
    · unfold updateContext
      rw [hfind]

theorem close_inv (st : SMState) (id : Nat) (status : Option SessionStatus)
    (now : Int) (h : Inv st) : Inv (close st id status now) := by
  cases hfind : findSession st id with
  | none =>
    unfold close
    rw [hfind]
    exact h
  | some s0 =>
    have h1 := updateStatus_inv st id (status.getD .completed) none now h
    refine inv_congr _ _ ?_ ?_ h1
    · unfold close
      rw [hfind]
      rfl
    · unfold close
      rw [hfind]
      rfl

theorem inv_ite (c : Prop) [Decidable c] (A B : SMState) (hA : Inv A) (hB : Inv B) :
    Inv (if c then A else B) := by
  by_cases hc : c
  · rwa [if_pos hc]
  · rwa [if_neg hc]

theorem timerFire_inv (st : SMState) (id : Nat) (now : Int) (h : Inv st) :
    Inv (timerFire st id now) := by
  unfold timerFire
  by_cases harm : id ∈ st.timers
  · rw [if_pos harm]
    dsimp only
    have h1 : Inv { st with timers := st.timers.filter (fun t => t ≠ id) } :=
      inv_congr st _ rfl rfl h
    cases hfind : findSession { st with timers := st.timers.filter (fun t => t ≠ id) } id with
    | none =>
      exact h1
    | some s =>
      have h2 := updateStatus_inv
        { st with timers := st.timers.filter (fun t => t ≠ id) } id .timeout
        (some sessionTimeoutError) now h1
      exact inv_ite _ _ _ (inv_congr _ _ rfl rfl h2) h1
  · rw [if_neg harm]
    exact h

theorem cleanup_inv (st : SMState) (olderThan now : Int) (h : Inv st) :
    Inv (cleanup st olderThan now) := by
  refine ⟨?_, ?_, ?_⟩
  · intro s hs hterm
    exact h.1 s (List.mem_of_mem_filter hs) hterm
  · have hsub : (cleanup st olderThan now).sessions.Sublist st.sessions :=
      List.filter_sublist _
    exact h.2.1.sublist (hsub.map _)
  · intro s hs
    exact h.2.2 s (List.mem_of_mem_filter hs)

theorem step_inv (st : SMState) (op : SMOp) (now : Int) (h : Inv st) :
    Inv (step st (op, now)) := by
  cases op with
  | opCreate q => exact create_inv st q now h
  | opUpdateStatus id status err => exact updateStatus_inv st id status err now h
  | opUpdatePhase id ph => exact updatePhase_inv st id ph now h
  | opUpdateContext id => exact updateContext_inv st id now h
  | opClose id status => exact close_inv st id status now h
  | opTimerFire id => exact timerFire_inv st id now h
  | opCleanup d => exact cleanup_inv st d now h

theorem initState_inv : Inv initState := by
  refine ⟨?_, ?_, ?_⟩
  · intro s hs _
    exact absurd hs (List.not_mem_nil s)
  · exact List.nodup_nil
  · intro s hs
    exact absurd hs (List.not_mem_nil s)

theorem runOps_inv (ops : List (SMOp × Int)) :
    ∀ st : SMState, Inv st → Inv (runOps st ops) := by
  induction ops with
  | nil =>
    intro st h
    exact h
  | cons p rest ih =>
    intro st h
    rcases p with ⟨op, now⟩
    exact ih _ (step_inv st op now h)

theorem findSession_updateStatus_self (st : SMState) (id : Nat)
    (status : SessionStatus) (err : Option SessionError) (now : Int)
    (s : AgentSession) (hfind : findSession st id = some s) :
    findSession (updateStatus st id status err now) id
      = some (applyStatus status err now s) := by
  have hm : findSession (mapSession st id (applyStatus status err now)) id
      = some (applyStatus status err now s) := by
    rw [findSession_mapSession st id _ (applyStatus_id status err now), hfind]
    rfl
  unfold updateStatus
  rw [hfind]
  dsimp only
  by_cases hc : status = .completed ∨ status = .failed
  · rw [if_pos hc]
    exact hm
  · rw [if_neg hc]
    exact hm

theorem updatePhase_sessions (st : SMState) (id : Nat) (ph : WorkflowPhase) (now : Int) :
    (updatePhase st id ph now).sessions =
      match findSession st id with
      | none => st.sessions
      | some _ => st.sessions.map (fun s => if s.id == id then applyPhase ph now s else s) := by
  unfold updatePhase
  cases findSession st id <;> rfl

theorem updateContext_sessions (st : SMState) (id : Nat) (now : Int) :
    (updateContext st id now).sessions =
      match findSession st id with
      | none => st.sessions
      | some _ => st.sessions.map (fun s => if s.id == id then { s with ctxUpdatedAt := now } else s) := by
  unfold updateContext
  cases findSession st id <;> rfl

theorem close_sessions (st : SMState) (id : Nat) (status : Option SessionStatus) (now : Int) :
    (close st id status now).sessions =
      match findSession st id with
      | none => st.sessions
      | some _ => (updateStatus st id (status.getD .completed) none now).sessions := by
  unfold close
  cases findSession st id <;> rfl

theorem timerFire_sessions (st : SMState) (id : Nat) (now : Int) :
    (timerFire st id now).sessions =
      if id ∈ st.timers then
        match findSession { st with timers := st.timers.filter (fun t => t ≠ id) } id with
        | some s =>
          if s.status = .running then
            (updateStatus { st with timers := st.timers.filter (fun t => t ≠ id) } id
              .timeout (some sessionTimeoutError) now).sessions
          else st.sessions
        | none => st.sessions
      else st.sessions := by
  unfold timerFire
  by_cases harm : id ∈ st.timers
  · rw [if_pos harm, if_pos harm]
    dsimp only
    cases hf : findSession { st with timers := st.timers.filter (fun t => t ≠ id) } id with
    | none => rfl
    | some s =>
      dsimp only
      by_cases hrun : s.status = .running
      · rw [if_pos hrun, if_pos hrun]
      · rw [if_neg hrun, if_neg hrun]
  · rw [if_neg harm, if_neg harm]

theorem mem_ids_of_eq_or_append (l l2 : List AgentSession) (a : Nat) (extra : List Nat)
    (h : l2.map (fun x => x.id) = l.map (fun x => x.id)
      ∨ l2.map (fun x => x.id) = l.map (fun x => x.id) ++ extra)
    (ha : a ∈ l.map (fun x => x.id)) : a ∈ l2.map (fun x => x.id) := by
  rcases h with h | h
  · rw [h]
    exact ha
  · rw [h]
    exact List.mem_append_left _ ha

theorem step_ids_noncleanup (st : SMState) (op : SMOp) (now2 : Int)
    (hne : ∀ d, op ≠ SMOp.opCleanup d) :
    (step st (op, now2)).sessions.map (fun x => x.id) = st.sessions.map (fun x => x.id)
    ∨ (step st (op, now2)).sessions.map (fun x => x.id)
        = st.sessions.map (fun x => x.id) ++ [st.nextId] := by
  cases op with
  | opCreate q =>
    right
    show ((st.sessions
        ++ [(⟨st.nextId, q, .created, now2, none, none, none, [], now2⟩ : AgentSession)]).map
          (fun x => x.id)) = _
    rw [List.map_append]
    rfl
  | opUpdateStatus id status err =>
    left
    show (updateStatus st id status err now2).sessions.map (fun x => x.id) = _
    rw [updateStatus_sessions]
    cases findSession st id with
    | none => rfl
    | some s0 => exact map_id_mapSession st.sessions id _ (applyStatus_id status err now2)
  | opUpdatePhase id ph =>
    left
    show (updatePhase st id ph now2).sessions.map (fun x => x.id) = _
    rw [updatePhase_sessions]
    cases findSession st id with
    | none => rfl
    | some s0 => exact map_id_mapSession st.sessions id _ (applyPhase_id ph now2)
  | opUpdateContext id =>
    left
    show (updateContext st id now2).sessions.map (fun x => x.id) = _
    rw [updateContext_sessions]
    cases findSession st id with
    | none => rfl
    | some s0 => exact map_id_mapSession st.sessions id _ (fun s => rfl)
  | opClose id status =>
    left
    show (close st id status now2).sessions.map (fun x => x.id) = _
    rw [close_sessions]
    cases findSession st id with
    | none => rfl
    | some s0 =>
      rw [updateStatus_sessions]
      cases findSession st id with
      | none => rfl
      | some s1 =>
        exact map_id_mapSession st.sessions id _ (applyStatus_id (status.getD .completed) none now2)
  | opTimerFire id =>
    left
    show (timerFire st id now2).sessions.map (fun x => x.id) = _
    rw [timerFire_sessions]
    by_cases harm : id ∈ st.timers
    · rw [if_pos harm]
      cases hf : findSession { st with timers := st.timers.filter (fun t => t ≠ id) } id with
      | none => rfl
      | some s =>
        dsimp only
        by_cases hrun : s.status = .running
        · rw [if_pos hrun, updateStatus_sessions]
          cases findSession { st with timers := st.timers.filter (fun t => t ≠ id) } id with
          | none => rfl
          | some s1 =>
            exact map_id_mapSession st.sessions id _
              (applyStatus_id .timeout (some sessionTimeoutError) now2)
        · rw [if_neg hrun]
    · rw [if_neg harm]
  | opCleanup d => exact absurd rfl (hne d)

theorem find?_filter_nodup (l : List AgentSession) (id : Nat) (s : AgentSession)
    (p : AgentSession → Bool)
    (hnd : (l.map (fun x => x.id)).Nodup)
    (hfind : l.find? (fun x => x.id == id) = some s) :
    (l.filter p).find? (fun x => x.id == id) = if p s then some s else none := by
  induction l with
  | nil => simp at hfind
  | cons c cs ih =>
    rw [List.map_cons, List.nodup_cons] at hnd
    by_cases hc : (c.id == id) = true
    · rw [@List.find?_cons_of_pos _ (fun x => x.id == id) c cs hc] at hfind
      injection hfind with hcs
      subst hcs
      have hnone : (cs.filter p).find? (fun x => x.id == id) = none := by
        rw [List.find?_eq_none]
        intro x hx hxid
        apply hnd.1
        have hxeq : x.id = id := eq_of_beq hxid
        have hceq : c.id = id := eq_of_beq hc
        rw [show c.id = x.id from by rw [hxeq, hceq]]
        exact List.mem_map_of_mem _ (List.mem_of_mem_filter hx)
      by_cases hp : p c = true
      · rw [if_pos hp, List.filter_cons_of_pos hp,
          @List.find?_cons_of_pos _ (fun x => x.id == id) c (cs.filter p) hc]
      · rw [if_neg hp, List.filter_cons_of_neg hp, hnone]
    · rw [@List.find?_cons_of_neg _ (fun x => x.id == id) c cs hc] at hfind
      have hrec := ih hnd.2 hfind
      by_cases hp : p c = true
      · rw [List.filter_cons_of_pos hp,
          @List.find?_cons_of_neg _ (fun x => x.id == id) c (cs.filter p) hc, hrec]
      · rw [List.filter_cons_of_neg hp, hrec]

theorem findSession_cleanup (st : SMState) (olderThan now : Int) (id : Nat)
    (s : AgentSession) (hnd : (st.sessions.map (fun x => x.id)).Nodup)
    (hfind : findSession st id = some s) :
    findSession (cleanup st olderThan now) id
      = if cleanupRemoves s olderThan now then none else some s := by
  have hkey := find?_filter_nodup st.sessions id s
    (fun x => !cleanupRemoves x olderThan now) hnd hfind
  rw [show findSession (cleanup st olderThan now) id
      = (st.sessions.filter (fun x => !cleanupRemoves x olderThan now)).find?
          (fun x => x.id == id) from rfl, hkey]
  cases hr : cleanupRemoves s olderThan now <;> simp [hr]

/-- C1 counterexample: after the reachable operation sequence create, mark
RUNNING, session timer fires, the store holds a session whose status is
TIMEOUT but whose `completedAt` is unset — refuting the invariant that
`completedAt` is set iff status is COMPLETED, FAILED or TIMEOUT (the source
only stamps `completedAt` for COMPLETED and FAILED). -/
theorem completedAt_iff_terminal_cex :
    ((runOps initState
        [(.opCreate "qa", 0), (.opUpdateStatus 0 .running none, 1),
         (.opTimerFire 0, 2)]).sessions.all
      (fun s => s.completedAt.isSome
        == (s.status == .completed || s.status == .failed || s.status == .timeout)))
      = false := by
  decide

/-- C1 as amended: after any sequence of store operations (create,
updateStatus, updatePhase, updateContext, close, session-timer firing,
cleanup) from the empty store, every session whose status is COMPLETED or
FAILED has its `completedAt` timestamp set; the TIMEOUT transition performed
by the session timer does not stamp `completedAt`, so TIMEOUT is excluded
from the invariant. -/
theorem terminal_status_has_completedAt (ops : List (SMOp × Int)) (id : Nat)
    (s : AgentSession)
    (hfind : findSession (runOps initState ops) id = some s)
    (hterm : s.status = .completed ∨ s.status = .failed) :
    s.completedAt.isSome = true := by
  have hinv := runOps_inv ops initState initState_inv
  exact hinv.1 s (List.mem_of_find?_eq_some hfind) hterm

/-- Witness for C1 (amended) at the concrete trace create → COMPLETED. -/
theorem terminal_status_has_completedAt_witness :
    findSession (runOps initState
        [(.opCreate "qa", 0), (.opUpdateStatus 0 .completed none, 5)]) 0 =
      some ⟨0, "qa", .completed, 0, some 5, none, none, [], 5⟩
    ∧ ((⟨0, "qa", .completed, 0, some 5, none, none, [], 5⟩ : AgentSession).completedAt.isSome
        = true) :=
  ⟨by decide,
   terminal_status_has_completedAt
     [(.opCreate "qa", 0), (.opUpdateStatus 0 .completed none, 5)] 0
     ⟨0, "qa", .completed, 0, some 5, none, none, [], 5⟩ (by decide) (Or.inl rfl)⟩

/-- C2 counterexample: if the session timer fires while the session is still
CREATED, no transition occurs and no timeout event is emitted — the direct
CREATED→TIMEOUT transition claimed by the specification never happens (the
timer callback requires status RUNNING). -/
theorem created_timer_no_transition_cex :
    ((findSession (runOps initState
        [(.opCreate "qa", 0), (.opTimerFire 0, 99)]) 0).map (fun s => s.status)
      = some .created)
    ∧ SMEvent.timeoutEv 0 ∉
        (runOps initState [(.opCreate "qa", 0), (.opTimerFire 0, 99)]).events := by
  decide

/-- C2 as amended: when a session's armed timer fires while the session's
status is RUNNING, the store transitions it to TIMEOUT with the fixed error
descriptor `{message: Session timed out, code: SESSION_TIMEOUT, retryable:
false}` and emits an update event followed by a timeout event; when the timer
fires while the status is still CREATED, the session and the event log are
left unchanged (no CREATED→TIMEOUT transition exists). -/
theorem timer_fire_behavior (st : SMState) (id : Nat) (now : Int)
    (s : AgentSession) (harm : id ∈ st.timers)
    (hfind : findSession st id = some s) :
    (s.status = .running →
      findSession (timerFire st id now) id =
          some { s with
                 status := SessionStatus.timeout,
                 error := some sessionTimeoutError,
                 ctxUpdatedAt := now }
        ∧ (timerFire st id now).events
            = st.events ++ [.updatedEv id, .timeoutEv id])
    ∧ (s.status = .created →
      (timerFire st id now).sessions = st.sessions
        ∧ (timerFire st id now).events = st.events) := by
  have hfind1 : findSession { st with timers := st.timers.filter (fun t => t ≠ id) } id
      = some s := hfind
  have happ : applyStatus SessionStatus.timeout (some sessionTimeoutError) now s
      = { s with
          status := SessionStatus.timeout,
          error := some sessionTimeoutError,
          ctxUpdatedAt := now } := by
    unfold applyStatus
    rw [if_neg (by decide :
      ¬(SessionStatus.timeout = SessionStatus.completed
        ∨ SessionStatus.timeout = SessionStatus.failed))]
  constructor
  · intro hrun
    have hTF : timerFire st id now =
        { updateStatus { st with timers := st.timers.filter (fun t => t ≠ id) } id SessionStatus.timeout (some sessionTimeoutError) now with
          events := (updateStatus { st with timers := st.timers.filter (fun t => t ≠ id) } id SessionStatus.timeout (some sessionTimeoutError) now).events ++ [SMEvent.timeoutEv id] } := by
      unfold timerFire
      rw [if_pos harm]
      dsimp only
      rw [hfind1]
      dsimp only
      rw [if_pos hrun]
    refine ⟨?_, ?_⟩
    · rw [hTF]
      have hfs := findSession_updateStatus_self
        { st with timers := st.timers.filter (fun t => t ≠ id) } id
        SessionStatus.timeout (some sessionTimeoutError) now s hfind1
      have hsame : findSession
          { updateStatus { st with timers := st.timers.filter (fun t => t ≠ id) } id SessionStatus.timeout (some sessionTimeoutError) now with
            events := (updateStatus { st with timers := st.timers.filter (fun t => t ≠ id) } id SessionStatus.timeout (some sessionTimeoutError) now).events ++ [SMEvent.timeoutEv id] } id
          = findSession (updateStatus { st with timers := st.timers.filter (fun t => t ≠ id) } id SessionStatus.timeout (some sessionTimeoutError) now) id := rfl
      rw [hsame, hfs, happ]
    · rw [hTF]
      have hev := updateStatus_events
        { st with timers := st.timers.filter (fun t => t ≠ id) } id
        SessionStatus.timeout (some sessionTimeoutError) now s hfind1
      show (updateStatus { st with timers := st.timers.filter (fun t => t ≠ id) } id SessionStatus.timeout (some sessionTimeoutError) now).events ++ [SMEvent.timeoutEv id]
          = st.events ++ [SMEvent.updatedEv id, SMEvent.timeoutEv id]
      rw [hev]
      rw [show ({ st with timers := st.timers.filter (fun t => t ≠ id) } : SMState).events
          = st.events from rfl, List.append_assoc]
      rfl
  · intro hcre
    have hne : ¬ s.status = .running := by
      rw [hcre]
      decide
    have hTF : timerFire st id now
        = { st with timers := st.timers.filter (fun t => t ≠ id) } := by
      unfold timerFire
      rw [if_pos harm]
      dsimp only
      rw [hfind1]
      dsimp only
      rw [if_neg hne]
    rw [hTF]
    exact ⟨rfl, rfl⟩

/-- Witness for C2 (amended) at a concrete RUNNING session. -/
theorem timer_fire_behavior_witness :
    findSession (timerFire (runOps initState
        [(.opCreate "qa", 0), (.opUpdateStatus 0 .running none, 1)]) 0 50) 0 =
      some ⟨0, "qa", .timeout, 0, none, some sessionTimeoutError, none, [], 50⟩ := by
  have h := timer_fire_behavior
    (runOps initState [(.opCreate "qa", 0), (.opUpdateStatus 0 .running none, 1)])
    0 50 ⟨0, "qa", .running, 0, none, none, none, [], 1⟩ (by decide) (by decide)
  exact (h.1 rfl).1

/-- C8: on every reachable store, `cleanup(olderThan)` removes a session iff
its status is COMPLETED or FAILED and its completion time is older than
`olderThan` before `now` (in particular it never removes a TIMEOUT, CREATED
or RUNNING session regardless of age), and cleanup is the only operation that
deletes sessions: every other operation preserves every session id. -/
theorem cleanup_removes_iff (ops : List (SMOp × Int)) (id : Nat)
    (s : AgentSession) (olderThan now : Int)
    (hfind : findSession (runOps initState ops) id = some s) :
    (findSession (cleanup (runOps initState ops) olderThan now) id = none
      ↔ ((s.status = .completed ∨ s.status = .failed)
          ∧ ∃ t, s.completedAt = some t ∧ now - t > olderThan))
    ∧ (∀ (op : SMOp) (now2 : Int), (∀ d, op ≠ SMOp.opCleanup d) →
        ∃ s2, s2 ∈ (step (runOps initState ops) (op, now2)).sessions ∧ s2.id = s.id) := by
  have hinv := runOps_inv ops initState initState_inv
  constructor
  · rw [findSession_cleanup (runOps initState ops) olderThan now id s hinv.2.1 hfind]
    constructor
    · intro hnone
      by_cases hr : cleanupRemoves s olderThan now = true
      · unfold cleanupRemoves at hr
        rw [Bool.and_eq_true] at hr
        rcases hr with ⟨hr1, hr2⟩
        constructor
        · rw [Bool.or_eq_true] at hr2
          rcases hr2 with hr2 | hr2
          · exact Or.inl (eq_of_beq hr2)
          · exact Or.inr (eq_of_beq hr2)
        · cases hca : s.completedAt with
          | none =>
            rw [hca] at hr1
            simp at hr1
          | some t =>
            rw [hca] at hr1
            refine ⟨t, rfl, ?_⟩
            have := of_decide_eq_true hr1
            omega
      · rw [if_neg hr] at hnone
        simp at hnone
    · rintro ⟨hst, t, hca, hgt⟩
      have hr : cleanupRemoves s olderThan now = true := by
        unfold cleanupRemoves
        rw [hca, Bool.and_eq_true]
        constructor
        · exact decide_eq_true (by omega)
        · rw [Bool.or_eq_true]
          rcases hst with hst | hst
          · exact Or.inl (by rw [hst]; rfl)
          · exact Or.inr (by rw [hst]; rfl)
      rw [if_pos hr]
  · intro op now2 hne
    have hids := step_ids_noncleanup (runOps initState ops) op now2 hne
    have hmem : s.id ∈ (step (runOps initState ops) (op, now2)).sessions.map
        (fun x => x.id) := by
      refine mem_ids_of_eq_or_append _ _ _ _ hids ?_
      exact List.mem_map_of_mem _ (List.mem_of_find?_eq_some hfind)
    rcases List.mem_map.1 hmem with ⟨s2, hs2, hid⟩
    exact ⟨s2, hs2, hid⟩

/-- Witness for C8 at a concrete completed session swept by cleanup. -/
theorem cleanup_removes_iff_witness :
    findSession (cleanup (runOps initState
        [(.opCreate "qa", 0), (.opUpdateStatus 0 .completed none, 10)]) 5 100) 0 = none := by
  have h := cleanup_removes_iff
    [(.opCreate "qa", 0), (.opUpdateStatus 0 .completed none, 10)] 0
    ⟨0, "qa", .completed, 0, some 10, none, none, [], 10⟩ 5 100 (by decide)
  exact h.1.2 ⟨Or.inl rfl, 10, rfl, by omega⟩

/-- C10: `getStats().active` counts only RUNNING sessions while
`getActiveSessions`/`getActiveSessionCount` count RUNNING and CREATED
sessions, so whenever at least one session is CREATED,
`getStats().active < getActiveSessionCount()`. -/
theorem stats_active_undercounts (st : SMState)
    (h : ∃ s ∈ st.sessions, s.status = .created) :
    (getStats st).active = st.sessions.countP (fun s => s.status == .running)
    ∧ getActiveSessionCount st
        = st.sessions.countP (fun s => s.status == .running || s.status == .created)
    ∧ (getStats st).active < getActiveSessionCount st := by
  have hcount : getActiveSessionCount st
      = st.sessions.countP (fun s => s.status == .running || s.status == .created) := by
    show (st.sessions.filter (fun s => s.status == .running || s.status == .created)).length
      = st.sessions.countP (fun s => s.status == .running || s.status == .created)
    rw [List.countP_eq_length_filter]
  have hsplit : ∀ l : List AgentSession,
      l.countP (fun s => s.status == .running || s.status == .created)
        = l.countP (fun s => s.status == .running)
          + l.countP (fun s => s.status == .created) := by
    intro l
    induction l with
    | nil => rfl
    | cons c cs ih =>
      rw [List.countP_cons, List.countP_cons, List.countP_cons, ih]
      cases c.status <;> simp <;> omega
  have hpos : 0 < st.sessions.countP (fun s => s.status == .created) := by
    rcases h with ⟨s, hs, hstat⟩
    refine List.countP_pos_iff.2 ⟨s, hs, ?_⟩
    rw [hstat]
    rfl
  refine ⟨rfl, hcount, ?_⟩
  rw [show (getStats st).active = st.sessions.countP (fun s => s.status == .running)
    from rfl, hcount, hsplit]
  omega

/-- Witness for C10 at a store with one CREATED session. -/
theorem stats_active_undercounts_witness :
    (∃ s ∈ ({ sessions := [⟨0, "qa", .created, 0, none, none, none, [], 0⟩], timers := [0], events := [], nextId := 1 } : SMState).sessions, s.status = .created)
    ∧ (getStats { sessions := [⟨0, "qa", .created, 0, none, none, none, [], 0⟩], timers := [0], events := [], nextId := 1 }).active
      < getActiveSessionCount { sessions := [⟨0, "qa", .created, 0, none, none, none, [], 0⟩], timers := [0], events := [], nextId := 1 } := by
  have h := stats_active_undercounts
    { sessions := [⟨0, "qa", .created, 0, none, none, none, [], 0⟩], timers := [0], events := [], nextId := 1 }
    (by decide)
  exact ⟨by decide, h.2.2⟩

end SessionLemmas

/-! Helper lemmas about the orchestrator pipeline. -/

section PipelineLemmas

open SessionManager

theorem findSession_updatePhase_self (st : SMState) (id : Nat) (ph : WorkflowPhase)
    (now : Int) (s : AgentSession) (hfind : findSession st id = some s) :
    findSession (updatePhase st id ph now) id = some (applyPhase ph now s) := by
  unfold updatePhase
  rw [hfind]
  dsimp only
  show findSession (mapSession st id (applyPhase ph now)) id = _
  rw [findSession_mapSession st id _ (applyPhase_id ph now), hfind]
  rfl

theorem findSession_updateContext_self (st : SMState) (id : Nat) (now : Int)
    (s : AgentSession) (hfind : findSession st id = some s) :
    findSession (updateContext st id now) id = some { s with ctxUpdatedAt := now } := by
  unfold updateContext
  rw [hfind]
  dsimp only
  show findSession (mapSession st id (fun s => { s with ctxUpdatedAt := now })) id = _
  rw [findSession_mapSession st id (fun s => { s with ctxUpdatedAt := now })
    (fun s => rfl), hfind]
  rfl

theorem findSession_close_self (st : SMState) (id : Nat)
    (status : Option SessionStatus) (now : Int) (s : AgentSession)
    (hfind : findSession st id = some s) :
    findSession (close st id status now) id
      = some (applyStatus (status.getD .completed) none now s) := by
  unfold close
  rw [hfind]
  dsimp only
  show findSession (clearTimer (updateStatus st id (status.getD .completed) none now) id) id = _
  show findSession (updateStatus st id (status.getD .completed) none now) id = _
  exact findSession_updateStatus_self st id _ none now s hfind

theorem close_events (st : SMState) (id : Nat) (status : Option SessionStatus)
    (now : Int) (s : AgentSession) (hfind : findSession st id = some s) :
    (close st id status now).events
      = (updateStatus st id (status.getD .completed) none now).events
          ++ [SMEvent.closedEv id] := by
  unfold close
  rw [hfind]
  rfl

theorem handleNewQA_ok {A I : Type} (st : SMState) (now : Int)
    (r : Orchestrator.ItemRun A I) :
    ∃ out, Orchestrator.handleNewQA st now r = .ok out := by
  unfold Orchestrator.handleNewQA
  by_cases hqa : r.qa.status = .notStarted
  · rw [if_pos hqa]
    dsimp only
    cases hout : (Orchestrator.processQA st now r.qa r.aR r.cR r.iR r.pR).outcome with
    | ok u => exact ⟨_, rfl⟩
    | error e => exact ⟨_, rfl⟩
  · rw [if_neg hqa]
    exact ⟨_, rfl⟩

theorem pollTick_foldl_ok {A I : Type} (now : Int) :
    ∀ (items : List (Orchestrator.ItemRun A I))
      (acc : SMState × List Orchestrator.Effect),
      ∃ res, items.foldl
        (fun a r => a.bind (fun pr =>
          (Orchestrator.handleNewQA pr.1 now r).map (fun h => (h.1, pr.2 ++ h.2))))
        (Except.ok acc) = .ok res := by
  intro items
  induction items with
  | nil =>
    intro acc
    exact ⟨acc, rfl⟩
  | cons r rest ih =>
    intro acc
    rw [List.foldl_cons]
    rcases handleNewQA_ok acc.1 now r with ⟨out, hout⟩
    rw [show (Except.ok acc).bind (fun pr =>
        (Orchestrator.handleNewQA pr.1 now r).map (fun h => (h.1, pr.2 ++ h.2)))
      = (Orchestrator.handleNewQA acc.1 now r).map (fun h => (h.1, acc.2 ++ h.2)) from rfl,
      hout]
    exact ih _

/-- Every tick of the polling intake loop terminates normally: the per-item
handler catches pipeline errors, so a single failing item never aborts the
remaining iterations. -/
theorem pollTick_ok {A I : Type} (st : SMState) (now : Int)
    (items : List (Orchestrator.ItemRun A I)) :
    ∃ res, Orchestrator.pollTick st now items = .ok res :=
  pollTick_foldl_ok now items (st, [])

theorem processQA_of_try_error {A I : Type} (st0 : SMState) (now : Int)
    (qa : NotionQAItem) (aR : AgentResult A) (cR : AgentResult ClassificationDecision)
    (iR : AgentResult I) (pR : AgentResult PullRequest)
    (stT : SMState) (effs : List Orchestrator.Effect) (e : JSError)
    (h : Orchestrator.processQATry
        (updateStatus (create st0 qa.id now) st0.nextId .running none now)
        st0.nextId now qa aR cR iR pR = (stT, effs, .error e)) :
    Orchestrator.processQA st0 now qa aR cR iR pR =
      { store := updateStatus stT st0.nextId .failed
          (some ⟨e.message, "PROCESSING_ERROR", false⟩) now,
        effects := effs, outcome := .error e } := by
  unfold Orchestrator.processQA
  dsimp only
  rw [h]

theorem handleNewQA_of_error {A I : Type} (st0 : SMState) (now : Int)
    (r : Orchestrator.ItemRun A I) (hqa : r.qa.status = .notStarted)
    (stP : SMState) (effs : List Orchestrator.Effect) (e : JSError)
    (h : Orchestrator.processQA st0 now r.qa r.aR r.cR r.iR r.pR
      = { store := stP, effects := effs, outcome := .error e }) :
    Orchestrator.handleNewQA st0 now r =
      .ok (stP, effs ++
        [Orchestrator.Effect.notionStatus r.qa.id .inReview,
         Orchestrator.Effect.notionComment r.qa.id (Orchestrator.failComment e.message),
         Orchestrator.Effect.slackError r.qa.id e.message]) := by
  unfold Orchestrator.handleNewQA
  rw [if_pos hqa]
  dsimp only
  rw [h]

set_option maxHeartbeats 1600000 in
/-- C3 as amended: for every work item accepted into the pipeline (status
NOT_STARTED), if the first failing phase is `ph`, the driver runs none of the
remaining phases (their agents are never invoked), marks the session FAILED
with an error descriptor whose message is the phase label followed by the
step's error message and whose code is the fixed `PROCESSING_ERROR` with
`retryable = false` (not the step's own error descriptor), performs the
external failure side effects (item moved to IN_REVIEW with an explanatory
comment and a failure notification), and the intake handler catches the
propagated error so the intake loop continues accepting further items. -/
theorem pipeline_failure_behavior {A I : Type} (now : Int)
    (r : Orchestrator.ItemRun A I) (ph : WorkflowPhase)
    (hqa : r.qa.status = .notStarted)
    (hph : ph = .analysis ∨ ph = .classification ∨ ph = .implementation ∨ ph = .prCreation)
    (hreach : Orchestrator.reaches r ph)
    (hfail : Orchestrator.phaseSuccess r ph = false) :
    ∃ st effs, Orchestrator.handleNewQA SessionManager.initState now r = .ok (st, effs)
      ∧ (∀ a ∈ Orchestrator.laterAgents ph, Orchestrator.Effect.agentExec a ∉ effs)
      ∧ (∃ s, SessionManager.findSession st 0 = some s
          ∧ s.status = .failed
          ∧ s.error = some ⟨Orchestrator.phaseLabel ph ++ Orchestrator.phaseErrMsg r ph,
              "PROCESSING_ERROR", false⟩)
      ∧ Orchestrator.Effect.notionStatus r.qa.id .inReview ∈ effs
      ∧ Orchestrator.Effect.notionComment r.qa.id
          (Orchestrator.failComment
            (Orchestrator.phaseLabel ph ++ Orchestrator.phaseErrMsg r ph)) ∈ effs
      ∧ Orchestrator.Effect.slackError r.qa.id
          (Orchestrator.phaseLabel ph ++ Orchestrator.phaseErrMsg r ph) ∈ effs
      ∧ ∀ rest : List (Orchestrator.ItemRun A I), ∃ res,
          Orchestrator.pollTick SessionManager.initState now (r :: rest) = .ok res := by
  rcases hph with rfl | rfl | rfl | rfl
  · -- analysis fails
    have hfailA : r.aR.success = false := hfail
    have hTry : ∀ (st2 : SessionManager.SMState) (sid : Nat),
        Orchestrator.processQATry st2 sid now r.qa r.aR r.cR r.iR r.pR
          = (SessionManager.updatePhase (st2) sid WorkflowPhase.analysis now,
          [Orchestrator.Effect.notionStatus r.qa.id QAStatus.inProgress,
           Orchestrator.Effect.slackStart r.qa.id,
           Orchestrator.Effect.agentExec "qa-analyzer"],
          Except.error { message := "QA Analysis failed: " ++ Orchestrator.errMsgOf r.aR }) := by
      intro st2 sid
      simp only [Orchestrator.processQATry, hfailA]
      try rfl
    have hP := processQA_of_try_error SessionManager.initState now r.qa r.aR r.cR r.iR r.pR
      _ _ _ (hTry _ _)
    have hH := handleNewQA_of_error SessionManager.initState now r hqa _ _ _ hP
    have f0 : SessionManager.findSession (SessionManager.create SessionManager.initState r.qa.id now) 0 = some ⟨0, r.qa.id, SessionStatus.created, now, none, none, none, [], now⟩ := rfl
    have f1 : SessionManager.findSession (SessionManager.updateStatus (SessionManager.create SessionManager.initState r.qa.id now) 0 SessionStatus.running none now) 0 = some ⟨0, r.qa.id, SessionStatus.running, now, none, none, none, [], now⟩ := by
      rw [findSession_updateStatus_self _ _ _ _ _ _ f0]
      try rfl
    have f2 : SessionManager.findSession (SessionManager.updatePhase (SessionManager.updateStatus (SessionManager.create SessionManager.initState r.qa.id now) 0 SessionStatus.running none now) 0 WorkflowPhase.analysis now) 0 = some ⟨0, r.qa.id, SessionStatus.running, now, none, none, some WorkflowPhase.analysis, [WorkflowPhase.analysis], now⟩ := by
      rw [findSession_updatePhase_self _ _ _ _ _ f1]
      try rfl
    have f3 : SessionManager.findSession (SessionManager.updateStatus (SessionManager.updatePhase (SessionManager.updateStatus (SessionManager.create SessionManager.initState r.qa.id now) 0 SessionStatus.running none now) 0 WorkflowPhase.analysis now) 0 SessionStatus.failed (some ⟨"QA Analysis failed: " ++ Orchestrator.errMsgOf r.aR, "PROCESSING_ERROR", false⟩) now) 0 = some ⟨0, r.qa.id, SessionStatus.failed, now, some now, some ⟨"QA Analysis failed: " ++ Orchestrator.errMsgOf r.aR, "PROCESSING_ERROR", false⟩, some WorkflowPhase.analysis, [WorkflowPhase.analysis], now⟩ := by
      rw [findSession_updateStatus_self _ _ _ _ _ _ f2]
      try rfl
    refine ⟨_, _, hH, ?_, ⟨⟨0, r.qa.id, SessionStatus.failed, now, some now, some ⟨"QA Analysis failed: " ++ Orchestrator.errMsgOf r.aR, "PROCESSING_ERROR", false⟩, some WorkflowPhase.analysis, [WorkflowPhase.analysis], now⟩, f3, rfl, rfl⟩, ?_, ?_, ?_,
      fun rest => pollTick_ok SessionManager.initState now (r :: rest)⟩
    · intro a ha
      simp only [Orchestrator.laterAgents, List.mem_cons, List.not_mem_nil, or_false] at ha
      rcases ha with rfl | rfl | rfl <;> simp
    · simp [Orchestrator.phaseLabel, Orchestrator.phaseErrMsg]
    · simp [Orchestrator.phaseLabel, Orchestrator.phaseErrMsg]
    · simp [Orchestrator.phaseLabel, Orchestrator.phaseErrMsg]
  · -- classification fails
    have haS : r.aR.success = true := hreach
    have hfailC : r.cR.success = false := hfail
    have hTry : ∀ (st2 : SessionManager.SMState) (sid : Nat),
        Orchestrator.processQATry st2 sid now r.qa r.aR r.cR r.iR r.pR
          = (SessionManager.updatePhase (SessionManager.updateContext (SessionManager.updatePhase (st2) sid WorkflowPhase.analysis now) sid now) sid WorkflowPhase.classification now,
          [Orchestrator.Effect.notionStatus r.qa.id QAStatus.inProgress,
           Orchestrator.Effect.slackStart r.qa.id,
           Orchestrator.Effect.agentExec "qa-analyzer",
           Orchestrator.Effect.agentExec "action-classifier"],
          Except.error { message := "Classification failed: " ++ Orchestrator.errMsgOf r.cR }) := by
      intro st2 sid
      simp only [Orchestrator.processQATry, haS, hfailC]
      try rfl
    have hP := processQA_of_try_error SessionManager.initState now r.qa r.aR r.cR r.iR r.pR
      _ _ _ (hTry _ _)
    have hH := handleNewQA_of_error SessionManager.initState now r hqa _ _ _ hP
    have f0 : SessionManager.findSession (SessionManager.create SessionManager.initState r.qa.id now) 0 = some ⟨0, r.qa.id, SessionStatus.created, now, none, none, none, [], now⟩ := rfl
    have f1 : SessionManager.findSession (SessionManager.updateStatus (SessionManager.create SessionManager.initState r.qa.id now) 0 SessionStatus.running none now) 0 = some ⟨0, r.qa.id, SessionStatus.running, now, none, none, none, [], now⟩ := by
      rw [findSession_updateStatus_self _ _ _ _ _ _ f0]
      try rfl
    have f2 : SessionManager.findSession (SessionManager.updatePhase (SessionManager.updateStatus (SessionManager.create SessionManager.initState r.qa.id now) 0 SessionStatus.running none now) 0 WorkflowPhase.analysis now) 0 = some ⟨0, r.qa.id, SessionStatus.running, now, none, none, some WorkflowPhase.analysis, [WorkflowPhase.analysis], now⟩ := by
      rw [findSession_updatePhase_self _ _ _ _ _ f1]
      try rfl
    have f3 : SessionManager.findSession (SessionManager.updateContext (SessionManager.updatePhase (SessionManager.updateStatus (SessionManager.create SessionManager.initState r.qa.id now) 0 SessionStatus.running none now) 0 WorkflowPhase.analysis now) 0 now) 0 = some ⟨0, r.qa.id, SessionStatus.running, now, none, none, some WorkflowPhase.analysis, [WorkflowPhase.analysis], now⟩ := by
      rw [findSession_updateContext_self _ _ _ _ f2]
      try rfl
    have f4 : SessionManager.findSession (SessionManager.updatePhase (SessionManager.updateContext (SessionManager.updatePhase (SessionManager.updateStatus (SessionManager.create SessionManager.initState r.qa.id now) 0 SessionStatus.running none now) 0 WorkflowPhase.analysis now) 0 now) 0 WorkflowPhase.classification now) 0 = some ⟨0, r.qa.id, SessionStatus.running, now, none, none, some WorkflowPhase.classification, [WorkflowPhase.analysis, WorkflowPhase.classification], now⟩ := by
      rw [findSession_updatePhase_self _ _ _ _ _ f3]
      try rfl
    have f5 : SessionManager.findSession (SessionManager.updateStatus (SessionManager.updatePhase (SessionManager.updateContext (SessionManager.updatePhase (SessionManager.updateStatus (SessionManager.create SessionManager.initState r.qa.id now) 0 SessionStatus.running none now) 0 WorkflowPhase.analysis now) 0 now) 0 WorkflowPhase.classification now) 0 SessionStatus.failed (some ⟨"Classification failed: " ++ Orchestrator.errMsgOf r.cR, "PROCESSING_ERROR", false⟩) now) 0 = some ⟨0, r.qa.id, SessionStatus.failed, now, some now, some ⟨"Classification failed: " ++ Orchestrator.errMsgOf r.cR, "PROCESSING_ERROR", false⟩, some WorkflowPhase.classification, [WorkflowPhase.analysis, WorkflowPhase.classification], now⟩ := by
      rw [findSession_updateStatus_self _ _ _ _ _ _ f4]
      try rfl
    refine ⟨_, _, hH, ?_, ⟨⟨0, r.qa.id, SessionStatus.failed, now, some now, some ⟨"Classification failed: " ++ Orchestrator.errMsgOf r.cR, "PROCESSING_ERROR", false⟩, some WorkflowPhase.classification, [WorkflowPhase.analysis, WorkflowPhase.classification], now⟩, f5, rfl, rfl⟩, ?_, ?_, ?_,
      fun rest => pollTick_ok SessionManager.initState now (r :: rest)⟩
    · intro a ha
      simp only [Orchestrator.laterAgents, List.mem_cons, List.not_mem_nil, or_false] at ha
      rcases ha with rfl | rfl <;> simp
    · simp [Orchestrator.phaseLabel, Orchestrator.phaseErrMsg]
    · simp [Orchestrator.phaseLabel, Orchestrator.phaseErrMsg]
    · simp [Orchestrator.phaseLabel, Orchestrator.phaseErrMsg]
  · -- implementation fails
    obtain ⟨haS, hcS, d, hd, hact⟩ := hreach
    have hfailI : r.iR.success = false := hfail
    have hTry : ∀ (st2 : SessionManager.SMState) (sid : Nat),
        Orchestrator.processQATry st2 sid now r.qa r.aR r.cR r.iR r.pR
          = (SessionManager.updatePhase (SessionManager.updateContext (SessionManager.updatePhase (SessionManager.updateContext (SessionManager.updatePhase (st2) sid WorkflowPhase.analysis now) sid now) sid WorkflowPhase.classification now) sid now) sid WorkflowPhase.implementation now,
          [Orchestrator.Effect.notionStatus r.qa.id QAStatus.inProgress,
           Orchestrator.Effect.slackStart r.qa.id,
           Orchestrator.Effect.agentExec "qa-analyzer",
           Orchestrator.Effect.agentExec "action-classifier",
           Orchestrator.Effect.agentExec "code-agent"],
          Except.error { message := "Code implementation failed: " ++ Orchestrator.errMsgOf r.iR }) := by
      intro st2 sid
      simp only [Orchestrator.processQATry, haS, hcS, hd, hact, hfailI]
      try rfl
    have hP := processQA_of_try_error SessionManager.initState now r.qa r.aR r.cR r.iR r.pR
      _ _ _ (hTry _ _)
    have hH := handleNewQA_of_error SessionManager.initState now r hqa _ _ _ hP
    have f0 : SessionManager.findSession (SessionManager.create SessionManager.initState r.qa.id now) 0 = some ⟨0, r.qa.id, SessionStatus.created, now, none, none, none, [], now⟩ := rfl
    have f1 : SessionManager.findSession (SessionManager.updateStatus (SessionManager.create SessionManager.initState r.qa.id now) 0 SessionStatus.running none now) 0 = some ⟨0, r.qa.id, SessionStatus.running, now, none, none, none, [], now⟩ := by
      rw [findSession_updateStatus_self _ _ _ _ _ _ f0]
      try rfl
    have f2 : SessionManager.findSession (SessionManager.updatePhase (SessionManager.updateStatus (SessionManager.create SessionManager.initState r.qa.id now) 0 SessionStatus.running none now) 0 WorkflowPhase.analysis now) 0 = some ⟨0, r.qa.id, SessionStatus.running, now, none, none, some WorkflowPhase.analysis, [WorkflowPhase.analysis], now⟩ := by
      rw [findSession_updatePhase_self _ _ _ _ _ f1]
      try rfl
    have f3 : SessionManager.findSession (SessionManager.updateContext (SessionManager.updatePhase (SessionManager.updateStatus (SessionManager.create SessionManager.initState r.qa.id now) 0 SessionStatus.running none now) 0 WorkflowPhase.analysis now) 0 now) 0 = some ⟨0, r.qa.id, SessionStatus.running, now, none, none, some WorkflowPhase.analysis, [WorkflowPhase.analysis], now⟩ := by
      rw [findSession_updateContext_self _ _ _ _ f2]
      try rfl
    have f4 : SessionManager.findSession (SessionManager.updatePhase (SessionManager.updateContext (SessionManager.updatePhase (SessionManager.updateStatus (SessionManager.create SessionManager.initState r.qa.id now) 0 SessionStatus.running none now) 0 WorkflowPhase.analysis now) 0 now) 0 WorkflowPhase.classification now) 0 = some ⟨0, r.qa.id, SessionStatus.running, now, none, none, some WorkflowPhase.classification, [WorkflowPhase.analysis, WorkflowPhase.classification], now⟩ := by
      rw [findSession_updatePhase_self _ _ _ _ _ f3]
      try rfl
    have f5 : SessionManager.findSession (SessionManager.updateContext (SessionManager.updatePhase (SessionManager.updateContext (SessionManager.updatePhase (SessionManager.updateStatus (SessionManager.create SessionManager.initState r.qa.id now) 0 SessionStatus.running none now) 0 WorkflowPhase.analysis now) 0 now) 0 WorkflowPhase.classification now) 0 now) 0 = some ⟨0, r.qa.id, SessionStatus.running, now, none, none, some WorkflowPhase.classification, [WorkflowPhase.analysis, WorkflowPhase.classification], now⟩ := by
      rw [findSession_updateContext_self _ _ _ _ f4]
      try rfl
    have f6 : SessionManager.findSession (SessionManager.updatePhase (SessionManager.updateContext (SessionManager.updatePhase (SessionManager.updateContext (SessionManager.updatePhase (SessionManager.updateStatus (SessionManager.create SessionManager.initState r.qa.id now) 0 SessionStatus.running none now) 0 WorkflowPhase.analysis now) 0 now) 0 WorkflowPhase.classification now) 0 now) 0 WorkflowPhase.implementation now) 0 = some ⟨0, r.qa.id, SessionStatus.running, now, none, none, some WorkflowPhase.implementation, [WorkflowPhase.analysis, WorkflowPhase.classification, WorkflowPhase.implementation], now⟩ := by
      rw [findSession_updatePhase_self _ _ _ _ _ f5]
      try rfl
    have f7 : SessionManager.findSession (SessionManager.updateStatus (SessionManager.updatePhase (SessionManager.updateContext (SessionManager.updatePhase (SessionManager.updateContext (SessionManager.updatePhase (SessionManager.updateStatus (SessionManager.create SessionManager.initState r.qa.id now) 0 SessionStatus.running none now) 0 WorkflowPhase.analysis now) 0 now) 0 WorkflowPhase.classification now) 0 now) 0 WorkflowPhase.implementation now) 0 SessionStatus.failed (some ⟨"Code implementation failed: " ++ Orchestrator.errMsgOf r.iR, "PROCESSING_ERROR", false⟩) now) 0 = some ⟨0, r.qa.id, SessionStatus.failed, now, some now, some ⟨"Code implementation failed: " ++ Orchestrator.errMsgOf r.iR, "PROCESSING_ERROR", false⟩, some WorkflowPhase.implementation, [WorkflowPhase.analysis, WorkflowPhase.classification, WorkflowPhase.implementation], now⟩ := by
      rw [findSession_updateStatus_self _ _ _ _ _ _ f6]
      try rfl
    refine ⟨_, _, hH, ?_, ⟨⟨0, r.qa.id, SessionStatus.failed, now, some now, some ⟨"Code implementation failed: " ++ Orchestrator.errMsgOf r.iR, "PROCESSING_ERROR", false⟩, some WorkflowPhase.implementation, [WorkflowPhase.analysis, WorkflowPhase.classification, WorkflowPhase.implementation], now⟩, f7, rfl, rfl⟩, ?_, ?_, ?_,
      fun rest => pollTick_ok SessionManager.initState now (r :: rest)⟩
    · intro a ha
      simp only [Orchestrator.laterAgents, List.mem_cons, List.not_mem_nil, or_false] at ha
      rcases ha with rfl
      simp
    · simp [Orchestrator.phaseLabel, Orchestrator.phaseErrMsg]
    · simp [Orchestrator.phaseLabel, Orchestrator.phaseErrMsg]
    · simp [Orchestrator.phaseLabel, Orchestrator.phaseErrMsg]
  · -- reporting (PR creation) fails
    obtain ⟨haS, hcS, ⟨d, hd, hact⟩, hiS⟩ := hreach
    have hfailP : r.pR.success = false := hfail
    have hTry : ∀ (st2 : SessionManager.SMState) (sid : Nat),
        Orchestrator.processQATry st2 sid now r.qa r.aR r.cR r.iR r.pR
          = (SessionManager.updatePhase (SessionManager.updateContext (SessionManager.updatePhase (SessionManager.updateContext (SessionManager.updatePhase (SessionManager.updateContext (SessionManager.updatePhase (st2) sid WorkflowPhase.analysis now) sid now) sid WorkflowPhase.classification now) sid now) sid WorkflowPhase.implementation now) sid now) sid WorkflowPhase.prCreation now,
          [Orchestrator.Effect.notionStatus r.qa.id QAStatus.inProgress,
           Orchestrator.Effect.slackStart r.qa.id,
           Orchestrator.Effect.agentExec "qa-analyzer",
           Orchestrator.Effect.agentExec "action-classifier",
           Orchestrator.Effect.agentExec "code-agent",
           Orchestrator.Effect.agentExec "pr-manager"],
          Except.error { message := "PR creation failed: " ++ Orchestrator.errMsgOf r.pR }) := by
      intro st2 sid
      simp only [Orchestrator.processQATry, haS, hcS, hd, hact, hiS, hfailP]
      try rfl
    have hP := processQA_of_try_error SessionManager.initState now r.qa r.aR r.cR r.iR r.pR
      _ _ _ (hTry _ _)
    have hH := handleNewQA_of_error SessionManager.initState now r hqa _ _ _ hP
    have f0 : SessionManager.findSession (SessionManager.create SessionManager.initState r.qa.id now) 0 = some ⟨0, r.qa.id, SessionStatus.created, now, none, none, none, [], now⟩ := rfl
    have f1 : SessionManager.findSession (SessionManager.updateStatus (SessionManager.create SessionManager.initState r.qa.id now) 0 SessionStatus.running none now) 0 = some ⟨0, r.qa.id, SessionStatus.running, now, none, none, none, [], now⟩ := by
      rw [findSession_updateStatus_self _ _ _ _ _ _ f0]
      try rfl
    have f2 : SessionManager.findSession (SessionManager.updatePhase (SessionManager.updateStatus (SessionManager.create SessionManager.initState r.qa.id now) 0 SessionStatus.running none now) 0 WorkflowPhase.analysis now) 0 = some ⟨0, r.qa.id, SessionStatus.running, now, none, none, some WorkflowPhase.analysis, [WorkflowPhase.analysis], now⟩ := by
      rw [findSession_updatePhase_self _ _ _ _ _ f1]
      try rfl
    have f3 : SessionManager.findSession (SessionManager.updateContext (SessionManager.updatePhase (SessionManager.updateStatus (SessionManager.create SessionManager.initState r.qa.id now) 0 SessionStatus.running none now) 0 WorkflowPhase.analysis now) 0 now) 0 = some ⟨0, r.qa.id, SessionStatus.running, now, none, none, some WorkflowPhase.analysis, [WorkflowPhase.analysis], now⟩ := by
      rw [findSession_updateContext_self _ _ _ _ f2]
      try rfl
    have f4 : SessionManager.findSession (SessionManager.updatePhase (SessionManager.updateContext (SessionManager.updatePhase (SessionManager.updateStatus (SessionManager.create SessionManager.initState r.qa.id now) 0 SessionStatus.running none now) 0 WorkflowPhase.analysis now) 0 now) 0 WorkflowPhase.classification now) 0 = some ⟨0, r.qa.id, SessionStatus.running, now, none, none, some WorkflowPhase.classification, [WorkflowPhase.analysis, WorkflowPhase.classification], now⟩ := by
      rw [findSession_updatePhase_self _ _ _ _ _ f3]
      try rfl
    have f5 : SessionManager.findSession (SessionManager.updateContext (SessionManager.updatePhase (SessionManager.updateContext (SessionManager.updatePhase (SessionManager.updateStatus (SessionManager.create SessionManager.initState r.qa.id now) 0 SessionStatus.running none now) 0 WorkflowPhase.analysis now) 0 now) 0 WorkflowPhase.classification now) 0 now) 0 = some ⟨0, r.qa.id, SessionStatus.running, now, none, none, some WorkflowPhase.classification, [WorkflowPhase.analysis, WorkflowPhase.classification], now⟩ := by
      rw [findSession_updateContext_self _ _ _ _ f4]
      try rfl
    have f6 : SessionManager.findSession (SessionManager.updatePhase (SessionManager.updateContext (SessionManager.updatePhase (SessionManager.updateContext (SessionManager.updatePhase (SessionManager.updateStatus (SessionManager.create SessionManager.initState r.qa.id now) 0 SessionStatus.running none now) 0 WorkflowPhase.analysis now) 0 now) 0 WorkflowPhase.classification now) 0 now) 0 WorkflowPhase.implementation now) 0 = some ⟨0, r.qa.id, SessionStatus.running, now, none, none, some WorkflowPhase.implementation, [WorkflowPhase.analysis, WorkflowPhase.classification, WorkflowPhase.implementation], now⟩ := by
      rw [findSession_updatePhase_self _ _ _ _ _ f5]
      try rfl
    have f7 : SessionManager.findSession (SessionManager.updateContext (SessionManager.updatePhase (SessionManager.updateContext (SessionManager.updatePhase (SessionManager.updateContext (SessionManager.updatePhase (SessionManager.updateStatus (SessionManager.create SessionManager.initState r.qa.id now) 0 SessionStatus.running none now) 0 WorkflowPhase.analysis now) 0 now) 0 WorkflowPhase.classification now) 0 now) 0 WorkflowPhase.implementation now) 0 now) 0 = some ⟨0, r.qa.id, SessionStatus.running, now, none, none, some WorkflowPhase.implementation, [WorkflowPhase.analysis, WorkflowPhase.classification, WorkflowPhase.implementation], now⟩ := by
      rw [findSession_updateContext_self _ _ _ _ f6]
      try rfl
    have f8 : SessionManager.findSession (SessionManager.updatePhase (SessionManager.updateContext (SessionManager.updatePhase (SessionManager.updateContext (SessionManager.updatePhase (SessionManager.updateContext (SessionManager.updatePhase (SessionManager.updateStatus (SessionManager.create SessionManager.initState r.qa.id now) 0 SessionStatus.running none now) 0 WorkflowPhase.analysis now) 0 now) 0 WorkflowPhase.classification now) 0 now) 0 WorkflowPhase.implementation now) 0 now) 0 WorkflowPhase.prCreation now) 0 = some ⟨0, r.qa.id, SessionStatus.running, now, none, none, some WorkflowPhase.prCreation, [WorkflowPhase.analysis, WorkflowPhase.classification, WorkflowPhase.implementation, WorkflowPhase.prCreation], now⟩ := by
      rw [findSession_updatePhase_self _ _ _ _ _ f7]
      try rfl
    have f9 : SessionManager.findSession (SessionManager.updateStatus (SessionManager.updatePhase (SessionManager.updateContext (SessionManager.updatePhase (SessionManager.updateContext (SessionManager.updatePhase (SessionManager.updateContext (SessionManager.updatePhase (SessionManager.updateStatus (SessionManager.create SessionManager.initState r.qa.id now) 0 SessionStatus.running none now) 0 WorkflowPhase.analysis now) 0 now) 0 WorkflowPhase.classification now) 0 now) 0 WorkflowPhase.implementation now) 0 now) 0 WorkflowPhase.prCreation now) 0 SessionStatus.failed (some ⟨"PR creation failed: " ++ Orchestrator.errMsgOf r.pR, "PROCESSING_ERROR", false⟩) now) 0 = some ⟨0, r.qa.id, SessionStatus.failed, now, some now, some ⟨"PR creation failed: " ++ Orchestrator.errMsgOf r.pR, "PROCESSING_ERROR", false⟩, some WorkflowPhase.prCreation, [WorkflowPhase.analysis, WorkflowPhase.classification, WorkflowPhase.implementation, WorkflowPhase.prCreation], now⟩ := by
      rw [findSession_updateStatus_self _ _ _ _ _ _ f8]
      try rfl
    refine ⟨_, _, hH, ?_, ⟨⟨0, r.qa.id, SessionStatus.failed, now, some now, some ⟨"PR creation failed: " ++ Orchestrator.errMsgOf r.pR, "PROCESSING_ERROR", false⟩, some WorkflowPhase.prCreation, [WorkflowPhase.analysis, WorkflowPhase.classification, WorkflowPhase.implementation, WorkflowPhase.prCreation], now⟩, f9, rfl, rfl⟩, ?_, ?_, ?_,
      fun rest => pollTick_ok SessionManager.initState now (r :: rest)⟩
    · intro a ha
      simp only [Orchestrator.laterAgents, List.not_mem_nil] at ha
    · simp [Orchestrator.phaseLabel, Orchestrator.phaseErrMsg]
    · simp [Orchestrator.phaseLabel, Orchestrator.phaseErrMsg]
    · simp [Orchestrator.phaseLabel, Orchestrator.phaseErrMsg]


theorem processQA_of_try_ok {A I : Type} (st0 : SMState) (now : Int)
    (qa : NotionQAItem) (aR : AgentResult A) (cR : AgentResult ClassificationDecision)
    (iR : AgentResult I) (pR : AgentResult PullRequest)
    (stT : SMState) (effs : List Orchestrator.Effect)
    (h : Orchestrator.processQATry
        (updateStatus (create st0 qa.id now) st0.nextId .running none now)
        st0.nextId now qa aR cR iR pR = (stT, effs, .ok ())) :
    Orchestrator.processQA st0 now qa aR cR iR pR =
      { store := stT, effects := effs, outcome := .ok () } := by
  unfold Orchestrator.processQA
  dsimp only
  rw [h]

theorem handleNewQA_of_ok {A I : Type} (st0 : SMState) (now : Int)
    (r : Orchestrator.ItemRun A I) (hqa : r.qa.status = .notStarted)
    (stP : SMState) (effs : List Orchestrator.Effect)
    (h : Orchestrator.processQA st0 now r.qa r.aR r.cR r.iR r.pR
      = { store := stP, effects := effs, outcome := .ok () }) :
    Orchestrator.handleNewQA st0 now r = .ok (stP, effs) := by
  unfold Orchestrator.handleNewQA
  rw [if_pos hqa]
  dsimp only
  rw [h]

/-- C9: for every work item in NOT_STARTED status whose analysis phase
succeeds and whose classification phase succeeds with `shouldAct = false`,
the pipeline stops after classification: the session is closed with status
COMPLETED (a closed event is emitted), the item is moved to NOT_ACTIONABLE
with the explanatory comment and a not-actionable notification, and the
implementation and reporting agents are never invoked. -/
theorem not_actionable_stops_pipeline {A I : Type} (now : Int)
    (r : Orchestrator.ItemRun A I) (d : ClassificationDecision)
    (hqa : r.qa.status = .notStarted)
    (haS : r.aR.success = true) (hcS : r.cR.success = true)
    (hd : r.cR.data = some d) (hact : d.shouldAct = false) :
    ∃ st effs, Orchestrator.handleNewQA SessionManager.initState now r = .ok (st, effs)
      ∧ (∃ s, SessionManager.findSession st 0 = some s ∧ s.status = .completed)
      ∧ SessionManager.SMEvent.closedEv 0 ∈ st.events
      ∧ Orchestrator.Effect.notionStatus r.qa.id .notActionable ∈ effs
      ∧ Orchestrator.Effect.notionComment r.qa.id
          (Orchestrator.notActionableComment d.reason) ∈ effs
      ∧ Orchestrator.Effect.slackNotActionable r.qa.id d.reason ∈ effs
      ∧ Orchestrator.Effect.agentExec "code-agent" ∉ effs
      ∧ Orchestrator.Effect.agentExec "pr-manager" ∉ effs := by
  have hTry : ∀ (st2 : SMState) (sid : Nat),
      Orchestrator.processQATry st2 sid now r.qa r.aR r.cR r.iR r.pR
        = (close (SessionManager.updateContext (SessionManager.updatePhase (SessionManager.updateContext (SessionManager.updatePhase (st2) sid WorkflowPhase.analysis now) sid now) sid WorkflowPhase.classification now) sid now) sid (some SessionStatus.completed) now,
          [Orchestrator.Effect.notionStatus r.qa.id QAStatus.inProgress,
           Orchestrator.Effect.slackStart r.qa.id,
           Orchestrator.Effect.agentExec "qa-analyzer",
           Orchestrator.Effect.agentExec "action-classifier",
           Orchestrator.Effect.notionStatus r.qa.id QAStatus.notActionable,
           Orchestrator.Effect.notionComment r.qa.id (Orchestrator.notActionableComment d.reason),
           Orchestrator.Effect.slackNotActionable r.qa.id d.reason],
          Except.ok ()) := by
    intro st2 sid
    simp only [Orchestrator.processQATry, haS, hcS, hd, hact]
    try rfl
  have hP := processQA_of_try_ok SessionManager.initState now r.qa r.aR r.cR r.iR r.pR _ _
    (hTry (SessionManager.updateStatus (SessionManager.create SessionManager.initState r.qa.id now) 0 SessionStatus.running none now) 0)
  have hH := handleNewQA_of_ok SessionManager.initState now r hqa _ _ hP
  have f0 : SessionManager.findSession (SessionManager.create SessionManager.initState r.qa.id now) 0 = some ⟨0, r.qa.id, SessionStatus.created, now, none, none, none, [], now⟩ := rfl
  have f1 : SessionManager.findSession (SessionManager.updateStatus (SessionManager.create SessionManager.initState r.qa.id now) 0 SessionStatus.running none now) 0 = some ⟨0, r.qa.id, SessionStatus.running, now, none, none, none, [], now⟩ := by
    rw [findSession_updateStatus_self _ _ _ _ _ _ f0]
    try rfl
  have f2 : SessionManager.findSession (SessionManager.updatePhase (SessionManager.updateStatus (SessionManager.create SessionManager.initState r.qa.id now) 0 SessionStatus.running none now) 0 WorkflowPhase.analysis now) 0 = some ⟨0, r.qa.id, SessionStatus.running, now, none, none, some WorkflowPhase.analysis, [WorkflowPhase.analysis], now⟩ := by
    rw [findSession_updatePhase_self _ _ _ _ _ f1]
    try rfl
  have f3 : SessionManager.findSession (SessionManager.updateContext (SessionManager.updatePhase (SessionManager.updateStatus (SessionManager.create SessionManager.initState r.qa.id now) 0 SessionStatus.running none now) 0 WorkflowPhase.analysis now) 0 now) 0 = some ⟨0, r.qa.id, SessionStatus.running, now, none, none, some WorkflowPhase.analysis, [WorkflowPhase.analysis], now⟩ := by
    rw [findSession_updateContext_self _ _ _ _ f2]
    try rfl
  have f4 : SessionManager.findSession (SessionManager.updatePhase (SessionManager.updateContext (SessionManager.updatePhase (SessionManager.updateStatus (SessionManager.create SessionManager.initState r.qa.id now) 0 SessionStatus.running none now) 0 WorkflowPhase.analysis now) 0 now) 0 WorkflowPhase.classification now) 0 = some ⟨0, r.qa.id, SessionStatus.running, now, none, none, some WorkflowPhase.classification, [WorkflowPhase.analysis, WorkflowPhase.classification], now⟩ := by
    rw [findSession_updatePhase_self _ _ _ _ _ f3]
    try rfl
  have f5 : SessionManager.findSession (SessionManager.updateContext (SessionManager.updatePhase (SessionManager.updateContext (SessionManager.updatePhase (SessionManager.updateStatus (SessionManager.create SessionManager.initState r.qa.id now) 0 SessionStatus.running none now) 0 WorkflowPhase.analysis now) 0 now) 0 WorkflowPhase.classification now) 0 now) 0 = some ⟨0, r.qa.id, SessionStatus.running, now, none, none, some WorkflowPhase.classification, [WorkflowPhase.analysis, WorkflowPhase.classification], now⟩ := by
    rw [findSession_updateContext_self _ _ _ _ f4]
    try rfl
  have f6 : SessionManager.findSession (SessionManager.close (SessionManager.updateContext (SessionManager.updatePhase (SessionManager.updateContext (SessionManager.updatePhase (SessionManager.updateStatus (SessionManager.create SessionManager.initState r.qa.id now) 0 SessionStatus.running none now) 0 WorkflowPhase.analysis now) 0 now) 0 WorkflowPhase.classification now) 0 now) 0 (some SessionStatus.completed) now) 0 = some ⟨0, r.qa.id, SessionStatus.completed, now, some now, none, some WorkflowPhase.classification, [WorkflowPhase.analysis, WorkflowPhase.classification], now⟩ := by
    rw [findSession_close_self _ _ _ _ _ f5]
    try rfl
  have hev := close_events (SessionManager.updateContext (SessionManager.updatePhase (SessionManager.updateContext (SessionManager.updatePhase (SessionManager.updateStatus (SessionManager.create SessionManager.initState r.qa.id now) 0 SessionStatus.running none now) 0 WorkflowPhase.analysis now) 0 now) 0 WorkflowPhase.classification now) 0 now) 0 (some SessionStatus.completed) now ⟨0, r.qa.id, SessionStatus.running, now, none, none, some WorkflowPhase.classification, [WorkflowPhase.analysis, WorkflowPhase.classification], now⟩ f5
  refine ⟨_, _, hH, ⟨⟨0, r.qa.id, SessionStatus.completed, now, some now, none, some WorkflowPhase.classification, [WorkflowPhase.analysis, WorkflowPhase.classification], now⟩, f6, rfl⟩, ?_, ?_, ?_, ?_, ?_, ?_⟩
  · rw [hev]
    exact List.mem_append_right _ (by simp)
  · simp
  · simp
  · simp
  · simp
  · simp



/-- C3 counterexample: when the analysis step fails with the step error
descriptor `⟨boom, STEP_X, retryable := true⟩`, the session is marked FAILED
with the descriptor `⟨QA Analysis failed: boom, PROCESSING_ERROR, false⟩`,
which is not the step's own error descriptor — refuting "marks the session
FAILED with the step's error descriptor" as literally stated. -/
theorem step_error_descriptor_cex :
    ((Orchestrator.handleNewQA SessionManager.initState 0
        (⟨⟨"qa-1", QAStatus.notStarted⟩, ⟨false, none, some ⟨"boom", "STEP_X", true⟩⟩, ⟨true, some ⟨true, "go"⟩, none⟩, ⟨true, some (), none⟩, ⟨true, some ⟨"u"⟩, none⟩⟩ : Orchestrator.ItemRun Unit Unit)).map
        (fun out => (SessionManager.findSession out.1 0).map (fun s => s.error)))
      = .ok (some (some ⟨"QA Analysis failed: boom", "PROCESSING_ERROR", false⟩))
    ∧ (some (⟨"QA Analysis failed: boom", "PROCESSING_ERROR", false⟩ : SessionError)
        ≠ some (⟨"boom", "STEP_X", true⟩ : SessionError)) := by
  decide

/-- Witness for C3 (amended) at a concrete item whose analysis step fails. -/
theorem pipeline_failure_behavior_witness :
    ∃ st effs, Orchestrator.handleNewQA SessionManager.initState 0
        (⟨⟨"qa-1", QAStatus.notStarted⟩, ⟨false, none, some ⟨"boom", "STEP_X", true⟩⟩, ⟨true, some ⟨true, "go"⟩, none⟩, ⟨true, some (), none⟩, ⟨true, some ⟨"u"⟩, none⟩⟩ : Orchestrator.ItemRun Unit Unit) = .ok (st, effs)
      ∧ (∀ a ∈ Orchestrator.laterAgents .analysis, Orchestrator.Effect.agentExec a ∉ effs)
      ∧ (∃ s, SessionManager.findSession st 0 = some s ∧ s.status = .failed
          ∧ s.error = some ⟨"QA Analysis failed: boom", "PROCESSING_ERROR", false⟩)
      ∧ Orchestrator.Effect.notionStatus "qa-1" .inReview ∈ effs
      ∧ Orchestrator.Effect.notionComment "qa-1"
          (Orchestrator.failComment "QA Analysis failed: boom") ∈ effs
      ∧ Orchestrator.Effect.slackError "qa-1" "QA Analysis failed: boom" ∈ effs
      ∧ ∀ rest : List (Orchestrator.ItemRun Unit Unit), ∃ res,
          Orchestrator.pollTick SessionManager.initState 0
            ((⟨⟨"qa-1", QAStatus.notStarted⟩, ⟨false, none, some ⟨"boom", "STEP_X", true⟩⟩, ⟨true, some ⟨true, "go"⟩, none⟩, ⟨true, some (), none⟩, ⟨true, some ⟨"u"⟩, none⟩⟩ : Orchestrator.ItemRun Unit Unit) :: rest) = .ok res :=
  pipeline_failure_behavior 0 (⟨⟨"qa-1", QAStatus.notStarted⟩, ⟨false, none, some ⟨"boom", "STEP_X", true⟩⟩, ⟨true, some ⟨true, "go"⟩, none⟩, ⟨true, some (), none⟩, ⟨true, some ⟨"u"⟩, none⟩⟩ : Orchestrator.ItemRun Unit Unit) .analysis rfl (Or.inl rfl) trivial rfl

/-- Witness for C9 at a concrete item classified as not actionable. -/
theorem not_actionable_stops_pipeline_witness :
    ∃ st effs, Orchestrator.handleNewQA SessionManager.initState 0
        (⟨⟨"qa-2", QAStatus.notStarted⟩, ⟨true, some (), none⟩, ⟨true, some ⟨false, "needs product decision"⟩, none⟩, ⟨true, some (), none⟩, ⟨true, some ⟨"u"⟩, none⟩⟩ : Orchestrator.ItemRun Unit Unit) = .ok (st, effs)
      ∧ (∃ s, SessionManager.findSession st 0 = some s ∧ s.status = .completed)
      ∧ SessionManager.SMEvent.closedEv 0 ∈ st.events
      ∧ Orchestrator.Effect.notionStatus "qa-2" .notActionable ∈ effs
      ∧ Orchestrator.Effect.notionComment "qa-2"
          (Orchestrator.notActionableComment "needs product decision") ∈ effs
      ∧ Orchestrator.Effect.slackNotActionable "qa-2" "needs product decision" ∈ effs
      ∧ Orchestrator.Effect.agentExec "code-agent" ∉ effs
      ∧ Orchestrator.Effect.agentExec "pr-manager" ∉ effs :=
  not_actionable_stops_pipeline 0 (⟨⟨"qa-2", QAStatus.notStarted⟩, ⟨true, some (), none⟩, ⟨true, some ⟨false, "needs product decision"⟩, none⟩, ⟨true, some (), none⟩, ⟨true, some ⟨"u"⟩, none⟩⟩ : Orchestrator.ItemRun Unit Unit) ⟨false, "needs product decision"⟩ rfl rfl rfl rfl rfl


end PipelineLemmas

end QAAutomation
